import Mathlib

/-!
Shallow embedding of the PHYDY_CAPSTONE per-channel token ledger
(src/allowances.rs, src/ibc.rs, src/state.rs) and proofs about it.

Machine integers: cosmwasm `Uint128` values are embedded as `Int` together
with explicit range guards.  `checked_sub` returns an overflow error;
the plain `+` / `+=` / `-` operators of `Uint128` panic past the 128-bit
width, which is embedded as a distinct `panic` outcome (a panicking call
aborts and commits nothing, while an error that the packet dispatcher
catches commits every write made before the error, because the dispatcher
returns a successful result to the host).

Storage maps (`cw_storage_plus::Map`) are embedded as association lists
with one entry per key; `Map::update` loads, applies the closure and saves,
exactly as in the library source.  Address validation
(`deps.api.addr_validate`) is an external collaborator (spec section 6); the
embedding treats addresses as already-validated strings.
-/

/-- Association-list lookup: first entry whose key matches. -/
def mapGet {κ ν : Type} [DecidableEq κ] : List (κ × ν) → κ → Option ν
  | [], _ => none
  | e :: t, k => if e.1 = k then some e.2 else mapGet t k

/-- Remove every entry stored under a key (`Map::remove`). -/
def eraseKey {κ ν : Type} [DecidableEq κ] : List (κ × ν) → κ → List (κ × ν)
  | [], _ => []
  | e :: t, k => if e.1 = k then eraseKey t k else e :: eraseKey t k

/-- Store a value under a key (`Map::save`), keeping keys unique. -/
def mapSet {κ ν : Type} [DecidableEq κ] (l : List (κ × ν)) (k : κ) (v : ν) :
    List (κ × ν) :=
  (k, v) :: eraseKey l k

/-- Boolean check that an association list has pairwise distinct keys. -/
def nodupKeys {κ ν : Type} [DecidableEq κ] : List (κ × ν) → Bool
  | [] => true
  | e :: t => (mapGet t e.1).isNone && nodupKeys t

/-- Modelled from the spec: error.rs is not under src/.  Standard-library
errors surfaced by storage loads and checked arithmetic (spec section 7:
`Overflow`/`InsufficientFunds`, `PayloadDecodeFailure`, missing records). -/
inductive StdError where
  | notFound
  | overflow
  | parseErr (desc : String)
deriving DecidableEq

/-- Modelled from the spec: error.rs is not under src/.  The error kinds of
spec section 7, with the variants the code in src/ constructs. -/
inductive ContractError where
  | std (e : StdError)
  | cannotSetOwnAccount
  | invalidExpiration
  | noAllowance
  | expired
  | cannotExceedCap
  | unauthorized
  | orderedChannel
  | invalidVersion (actual expected : String)
deriving DecidableEq

/-- Modelled from the spec: the textual description of an error carried in a
failure acknowledgement (error.rs Display is not under src/). -/
def errText : ContractError → String
  | .std .notFound => "not found"
  | .std .overflow => "Overflow"
  | .std (.parseErr d) => "Error parsing into type: " ++ d
  | .cannotSetOwnAccount => "Cannot set to own account"
  | .invalidExpiration => "Cannot set to expired state"
  | .noAllowance => "No allowance for this account"
  | .expired => "Allowance is expired"
  | .cannotExceedCap => "Minting cannot exceed the cap"
  | .unauthorized => "Unauthorized"
  | .orderedChannel => "only unordered channels are supported"
  | .invalidVersion a e => "invalid ibc channel version, actual " ++ a ++ " expected " ++ e

/-- Result of a pure step (a storage-update closure or an arithmetic
operator): a value, a contract error, or a panic. -/
inductive PureRes (α : Type) where
  | ok (a : α)
  | err (e : ContractError)
  | panic
deriving DecidableEq

/-- cw_utils/cw20 `Expiration`. -/
inductive Expiration where
  | at_height (h : Nat)
  | at_time (t : Nat)
  | never
deriving DecidableEq

structure BlockInfo where
  height : Nat
  time : Nat
deriving DecidableEq

/-- cw_utils `Expiration::is_expired`: at_height compares block height,
at_time compares block time, never is never expired. -/
def Expiration.is_expired (e : Expiration) (b : BlockInfo) : Bool :=
  match e with
  | .at_height h => b.height ≥ h
  | .at_time t => b.time ≥ t
  | .never => false

structure Env where
  block : BlockInfo
deriving DecidableEq

structure MessageInfo where
  sender : String
deriving DecidableEq

/-- cw20 `AllowanceResponse`: remaining amount and expiration. -/
structure AllowanceResponse where
  allowance : Int
  expires : Expiration
deriving DecidableEq

/-- cw20 `AllowanceResponse::default()`: zero amount, never expires. -/
def defaultAllowance : AllowanceResponse := { allowance := 0, expires := .never }

structure MinterData where
  minter : String
  cap : Option Int
deriving DecidableEq

/-- state.rs `TokenInfo`. -/
structure TokenInfo where
  name : String
  symbol : String
  decimals : Int
  total_supply : Int
  mint : Option MinterData
deriving DecidableEq

abbrev AKey := String × String × String
abbrev BKey := String × String

/-- The persistent maps of state.rs: `ALLOWANCES` keyed by
(channel, owner, spender), its mirror `ALLOWANCES_SPENDER` keyed by
(channel, spender, owner), `BALANCES` keyed by (channel, address),
`TOKEN_INFO` and `CONNECTION_COUNTS` keyed by channel. -/
structure Storage where
  allowances : List (AKey × AllowanceResponse)
  allowances_spender : List (AKey × AllowanceResponse)
  balances : List (BKey × Int)
  token_info : List (String × TokenInfo)
  connection_counts : List (String × Int)
deriving DecidableEq

/-- Outcome of a state-mutating call.  `ok` and `err` carry the storage as
mutated so far (an error caught by the packet dispatcher commits those
writes); `panic` aborts the call and commits nothing. -/
inductive Outcome (α : Type) where
  | ok (s : Storage) (a : α)
  | err (s : Storage) (e : ContractError)
  | panic
deriving DecidableEq

def U128_MAX : Int := 2 ^ 128 - 1

/-- `Uint128::checked_sub` mapped through `StdError::overflow`, as in the
source: an error rather than a wrap on underflow. -/
def u128_checked_sub (a b : Int) : PureRes Int :=
  if b ≤ a then .ok (a - b) else .err (.std .overflow)

/-- The panicking `+` / `+=` of `Uint128`: `none` is a panic past the
128-bit width. -/
def u128_add (a b : Int) : Option Int :=
  if a + b ≤ U128_MAX then some (a + b) else none

/-- The panicking `-` of `Uint128` (used on `total_supply` in
`execute_burn_from`): `none` is a panic on underflow. -/
def u128_sub (a b : Int) : Option Int :=
  if b ≤ a then some (a - b) else none

/-- `ALLOWANCES.update`: load, apply the closure, save on success. -/
def ALLOWANCES_update (k : AKey)
    (f : Option AllowanceResponse → PureRes AllowanceResponse)
    (s : Storage) : Outcome AllowanceResponse :=
  match f (mapGet s.allowances k) with
  | .ok v => .ok { s with allowances := mapSet s.allowances k v } v
  | .err e => .err s e
  | .panic => .panic

/-- `ALLOWANCES_SPENDER.update`. -/
def ALLOWANCES_SPENDER_update (k : AKey)
    (f : Option AllowanceResponse → PureRes AllowanceResponse)
    (s : Storage) : Outcome AllowanceResponse :=
  match f (mapGet s.allowances_spender k) with
  | .ok v => .ok { s with allowances_spender := mapSet s.allowances_spender k v } v
  | .err e => .err s e
  | .panic => .panic

/-- `BALANCES.update`. -/
def BALANCES_update (k : BKey) (f : Option Int → PureRes Int)
    (s : Storage) : Outcome Int :=
  match f (mapGet s.balances k) with
  | .ok v => .ok { s with balances := mapSet s.balances k v } v
  | .err e => .err s e
  | .panic => .panic

/-- `CONNECTION_COUNTS.update`. -/
def CONNECTION_COUNTS_update (k : String) (f : Option Int → PureRes Int)
    (s : Storage) : Outcome Int :=
  match f (mapGet s.connection_counts k) with
  | .ok v => .ok { s with connection_counts := mapSet s.connection_counts k v } v
  | .err e => .err s e
  | .panic => .panic

/-- An outbound `Cw20ReceiveMsg` turned into a cosmos message
(`into_cosmos_msg`): the contract addressed, the original sender, the
amount, and the opaque payload. -/
structure CosmosMsgM where
  contract : String
  sender : String
  amount : Int
  msg : String
deriving DecidableEq

/-- cosmwasm `Response`: attributes and outbound messages. -/
structure Response where
  attributes : List (String × String)
  messages : List CosmosMsgM
deriving DecidableEq

/-- Modelled from the spec: ack.rs is not under src/.  Spec section 6: a
success ack and a failure ack are distinct byte-tagged variants; only the
tag distinction and the carried error text are contractually required. -/
inductive Ack where
  | success
  | fail (err : String)
deriving DecidableEq

/-- Modelled from the spec: ack.rs `make_ack_success()`. -/
def make_ack_success : Ack := .success

/-- Modelled from the spec: ack.rs `make_ack_fail(err)`, carrying the
error text. -/
def make_ack_fail (err : String) : Ack := .fail err

/-- cosmwasm `IbcReceiveResponse`.  `ack = none` embeds the default
(empty) acknowledgement of `IbcReceiveResponse::new()`, i.e. `set_ack`
was never called. -/
structure IbcReceiveResponse where
  attributes : List (String × String)
  messages : List CosmosMsgM
  ack : Option Ack
deriving DecidableEq

def IbcReceiveResponse.new : IbcReceiveResponse :=
  { attributes := [], messages := [], ack := none }

def IbcReceiveResponse.add_attribute (r : IbcReceiveResponse) (k v : String) :
    IbcReceiveResponse :=
  { r with attributes := r.attributes ++ [(k, v)] }

def IbcReceiveResponse.set_ack (r : IbcReceiveResponse) (a : Ack) :
    IbcReceiveResponse :=
  { r with ack := some a }

/-- allowances.rs `execute_increase_allowance`: the `update_fn` closure.
Replaces the expiration first (failing with InvalidExpiration if the
supplied expiration has already elapsed), then `val.allowance += amount`
with the panicking `Uint128` addition. -/
def increase_update_fn (block : BlockInfo) (amount : Int)
    (expires : Option Expiration)
    (allow : Option AllowanceResponse) : PureRes AllowanceResponse :=
  let val := allow.getD defaultAllowance
  match expires with
  | some exp =>
    if exp.is_expired block then .err .invalidExpiration
    else
      match u128_add val.allowance amount with
      | some n => .ok { allowance := n, expires := exp }
      | none => .panic
  | none =>
    match u128_add val.allowance amount with
    | some n => .ok { allowance := n, expires := val.expires }
    | none => .panic

/-- allowances.rs `execute_increase_allowance`. -/
def execute_increase_allowance (env : Env) (info : MessageInfo)
    (spender : String) (amount : Int) (expires : Option Expiration)
    (channel : String) (s : Storage) : Outcome Response :=
  if spender = info.sender then .err s .cannotSetOwnAccount
  else
    match ALLOWANCES_update (channel, info.sender, spender)
        (increase_update_fn env.block amount expires) s with
    | .err s1 e => .err s1 e
    | .panic => .panic
    | .ok s1 _ =>
      match ALLOWANCES_SPENDER_update (channel, spender, info.sender)
          (increase_update_fn env.block amount expires) s1 with
      | .err s2 e => .err s2 e
      | .panic => .panic
      | .ok s2 _ =>
        .ok s2 { attributes := [("action", "increase_allowance"),
                                ("owner", info.sender),
                                ("spender", spender),
                                ("amount", toString amount)],
                 messages := [] }

/-- allowances.rs `reverse`: swap the owner and spender components of a key. -/
def reverseKey (t : AKey) : AKey := (t.1, t.2.2, t.2.1)

/-- allowances.rs `execute_decrease_allowance`: load (a missing record is a
storage not-found error), then subtract-and-save-both when the amount is
strictly below the remaining allowance, or remove both entries otherwise. -/
def execute_decrease_allowance (env : Env) (info : MessageInfo)
    (spender : String) (amount : Int) (expires : Option Expiration)
    (channel : String) (s : Storage) : Outcome Response :=
  if spender = info.sender then .err s .cannotSetOwnAccount
  else
    match mapGet s.allowances (channel, info.sender, spender) with
    | none => .err s (.std .notFound)
    | some allowance0 =>
      if amount < allowance0.allowance then
        match u128_checked_sub allowance0.allowance amount with
        | .err e => .err s e
        | .panic => .panic
        | .ok n =>
          match expires with
          | some exp =>
            if exp.is_expired env.block then .err s .invalidExpiration
            else
              .ok { s with
                      allowances := mapSet s.allowances
                        (channel, info.sender, spender)
                        { allowance := n, expires := exp },
                      allowances_spender := mapSet s.allowances_spender
                        (reverseKey (channel, info.sender, spender))
                        { allowance := n, expires := exp } }
                { attributes := [("action", "decrease_allowance"),
                                 ("owner", info.sender),
                                 ("spender", spender),
                                 ("amount", toString amount)],
                  messages := [] }
          | none =>
            .ok { s with
                    allowances := mapSet s.allowances
                      (channel, info.sender, spender)
                      { allowance := n, expires := allowance0.expires },
                    allowances_spender := mapSet s.allowances_spender
                      (reverseKey (channel, info.sender, spender))
                      { allowance := n, expires := allowance0.expires } }
              { attributes := [("action", "decrease_allowance"),
                               ("owner", info.sender),
                               ("spender", spender),
                               ("amount", toString amount)],
                messages := [] }
      else
        .ok { s with
                allowances := eraseKey s.allowances
                  (channel, info.sender, spender),
                allowances_spender := eraseKey s.allowances_spender
                  (reverseKey (channel, info.sender, spender)) }
          { attributes := [("action", "decrease_allowance"),
                           ("owner", info.sender),
                           ("spender", spender),
                           ("amount", toString amount)],
            messages := [] }

/-- allowances.rs `deduct_allowance`: the `update_fn` closure.  A missing
record is NoAllowance; an elapsed expiration is Expired (checked before the
amount); otherwise a checked subtraction of the amount. -/
def deduct_update_fn (block : BlockInfo) (amount : Int)
    (current : Option AllowanceResponse) : PureRes AllowanceResponse :=
  match current with
  | some a =>
    if a.expires.is_expired block then .err .expired
    else
      match u128_checked_sub a.allowance amount with
      | .ok n => .ok { a with allowance := n }
      | .err e => .err e
      | .panic => .panic
  | none => .err .noAllowance

/-- allowances.rs `deduct_allowance`: update the primary entry, then the
mirror entry, with the same closure. -/
def deduct_allowance (owner spender : String) (block : BlockInfo)
    (amount : Int) (channel : String) (s : Storage) :
    Outcome AllowanceResponse :=
  match ALLOWANCES_update (channel, owner, spender)
      (deduct_update_fn block amount) s with
  | .err s1 e => .err s1 e
  | .panic => .panic
  | .ok s1 _ =>
    ALLOWANCES_SPENDER_update (channel, spender, owner)
      (deduct_update_fn block amount) s1

/-- allowances.rs `execute_transfer_from`: deduct the allowance, then a
checked subtraction from the owner balance, then the panicking addition to
the recipient balance. -/
def execute_transfer_from (env : Env) (info : MessageInfo)
    (owner recipient : String) (amount : Int) (channel : String)
    (s : Storage) : Outcome Response :=
  match deduct_allowance owner info.sender env.block amount channel s with
  | .err s1 e => .err s1 e
  | .panic => .panic
  | .ok s1 _ =>
    match BALANCES_update (channel, owner)
        (fun b => u128_checked_sub (b.getD 0) amount) s1 with
    | .err s2 e => .err s2 e
    | .panic => .panic
    | .ok s2 _ =>
      match BALANCES_update (channel, recipient)
          (fun b => match u128_add (b.getD 0) amount with
                    | some n => .ok n
                    | none => .panic) s2 with
      | .err s3 e => .err s3 e
      | .panic => .panic
      | .ok s3 _ =>
        .ok s3 { attributes := [("action", "transfer_from"),
                                ("from", owner),
                                ("to", recipient),
                                ("by", info.sender),
                                ("amount", toString amount)],
                 messages := [] }

/-- allowances.rs `execute_burn_from`: deduct the allowance, a checked
subtraction from the owner balance, then load the channel token info and
lower `total_supply` with the panicking `Uint128` subtraction. -/
def execute_burn_from (env : Env) (info : MessageInfo) (owner : String)
    (amount : Int) (channel : String) (s : Storage) : Outcome Response :=
  match deduct_allowance owner info.sender env.block amount channel s with
  | .err s1 e => .err s1 e
  | .panic => .panic
  | .ok s1 _ =>
    match BALANCES_update (channel, owner)
        (fun b => u128_checked_sub (b.getD 0) amount) s1 with
    | .err s2 e => .err s2 e
    | .panic => .panic
    | .ok s2 _ =>
      match mapGet s2.token_info channel with
      | none => .err s2 (.std .notFound)
      | some t =>
        match u128_sub t.total_supply amount with
        | none => .panic
        | some n =>
          let t1 : TokenInfo := { t with total_supply := n }
          .ok { s2 with token_info := mapSet s2.token_info channel t1 }
            { attributes := [("action", "burn_from"),
                             ("from", owner),
                             ("by", info.sender),
                             ("amount", toString amount)],
              messages := [] }

/-- allowances.rs `execute_send_from`: like `execute_transfer_from` with
the recipient contract, plus an outbound `Cw20ReceiveMsg`. -/
def execute_send_from (env : Env) (info : MessageInfo)
    (owner contract : String) (amount : Int) (msg : String)
    (channel : String) (s : Storage) : Outcome Response :=
  match deduct_allowance owner info.sender env.block amount channel s with
  | .err s1 e => .err s1 e
  | .panic => .panic
  | .ok s1 _ =>
    match BALANCES_update (channel, owner)
        (fun b => u128_checked_sub (b.getD 0) amount) s1 with
    | .err s2 e => .err s2 e
    | .panic => .panic
    | .ok s2 _ =>
      match BALANCES_update (channel, contract)
          (fun b => match u128_add (b.getD 0) amount with
                    | some n => .ok n
                    | none => .panic) s2 with
      | .err s3 e => .err s3 e
      | .panic => .panic
      | .ok s3 _ =>
        .ok s3 { attributes := [("action", "send_from"),
                                ("from", owner),
                                ("to", contract),
                                ("by", info.sender),
                                ("amount", toString amount)],
                 messages := [{ contract := contract,
                                sender := info.sender,
                                amount := amount,
                                msg := msg }] }

/-- allowances.rs `query_allowance`: the primary record, or the default. -/
def query_allowance (owner spender channel : String) (s : Storage) :
    AllowanceResponse :=
  (mapGet s.allowances (channel, owner, spender)).getD defaultAllowance

/-- Modelled from the spec: contract.rs is not under src/.  `try_increment`
for the per-channel counter feature (spec section 3, ChannelCounter):
increment the channel counter and return the new count. -/
def try_increment (channel : String) (s : Storage) : Outcome Int :=
  CONNECTION_COUNTS_update channel (fun c => .ok (c.getD 0 + 1)) s

/-- Modelled from the spec: contract.rs is not under src/.  `execute_transfer`
(spec sections 1 and 6): move amount from the sender to the recipient on the
channel, overflow-checked. -/
def execute_transfer (_env : Env) (info : MessageInfo) (recipient : String)
    (amount : Int) (channel : String) (s : Storage) : Outcome Response :=
  match BALANCES_update (channel, info.sender)
      (fun b => u128_checked_sub (b.getD 0) amount) s with
  | .err s1 e => .err s1 e
  | .panic => .panic
  | .ok s1 _ =>
    match BALANCES_update (channel, recipient)
        (fun b => match u128_add (b.getD 0) amount with
                  | some n => .ok n
                  | none => .panic) s1 with
    | .err s2 e => .err s2 e
    | .panic => .panic
    | .ok s2 _ =>
      .ok s2 { attributes := [("action", "transfer"),
                              ("to", recipient),
                              ("amount", toString amount)],
               messages := [] }

/-- Modelled from the spec: contract.rs is not under src/.  `execute_burn`
(spec sections 1 and 6): lower the sender balance and the channel total
supply, overflow-checked. -/
def execute_burn (_env : Env) (info : MessageInfo) (amount : Int)
    (channel : String) (s : Storage) : Outcome Response :=
  match BALANCES_update (channel, info.sender)
      (fun b => u128_checked_sub (b.getD 0) amount) s with
  | .err s1 e => .err s1 e
  | .panic => .panic
  | .ok s1 _ =>
    match mapGet s1.token_info channel with
    | none => .err s1 (.std .notFound)
    | some t =>
      match u128_checked_sub t.total_supply amount with
      | .err e => .err s1 e
      | .panic => .panic
      | .ok n =>
        let t1 : TokenInfo := { t with total_supply := n }
        .ok { s1 with token_info := mapSet s1.token_info channel t1 }
          { attributes := [("action", "burn"),
                           ("amount", toString amount)],
            messages := [] }

/-- Modelled from the spec: contract.rs is not under src/.  `execute_mint`
(spec section 3: optional minter authority with optional issuance cap):
only the minter may mint, the cap bounds the new supply, and the minted
amount is added to the recipient balance. -/
def execute_mint (_env : Env) (info : MessageInfo) (recipient : String)
    (amount : Int) (channel : String) (s : Storage) : Outcome Response :=
  match mapGet s.token_info channel with
  | none => .err s (.std .notFound)
  | some t =>
    match t.mint with
    | none => .err s .unauthorized
    | some m =>
      if m.minter = info.sender then
        match u128_add t.total_supply amount with
        | none => .panic
        | some n =>
          if (m.cap.map (fun cap => decide (cap < n))).getD false then
            .err s .cannotExceedCap
          else
            let t1 : TokenInfo := { t with total_supply := n }
            match BALANCES_update (channel, recipient)
                (fun b => match u128_add (b.getD 0) amount with
                          | some nb => .ok nb
                          | none => .panic)
                { s with token_info := mapSet s.token_info channel t1 } with
            | .err s2 e => .err s2 e
            | .panic => .panic
            | .ok s2 _ =>
              .ok s2 { attributes := [("action", "mint"),
                                      ("to", recipient),
                                      ("amount", toString amount)],
                       messages := [] }
      else .err s .unauthorized

/-- Modelled from the spec: contract.rs is not under src/.  `execute_send`
(spec sections 1 and 6): like a transfer to a contract plus an outbound
notification message. -/
def execute_send (_env : Env) (info : MessageInfo) (contract : String)
    (amount : Int) (msg : String) (channel : String) (s : Storage) :
    Outcome Response :=
  match BALANCES_update (channel, info.sender)
      (fun b => u128_checked_sub (b.getD 0) amount) s with
  | .err s1 e => .err s1 e
  | .panic => .panic
  | .ok s1 _ =>
    match BALANCES_update (channel, contract)
        (fun b => match u128_add (b.getD 0) amount with
                  | some n => .ok n
                  | none => .panic) s1 with
    | .err s2 e => .err s2 e
    | .panic => .panic
    | .ok s2 _ =>
      .ok s2 { attributes := [("action", "send"),
                              ("to", contract),
                              ("amount", toString amount)],
               messages := [{ contract := contract,
                              sender := info.sender,
                              amount := amount,
                              msg := msg }] }

/-- The ten message kinds of msg.rs `IbcExecuteMsg`, with the exact
variant and field names of the match in ibc.rs `do_ibc_packet_receive`
(including the `receipient` spelling of Transfer and Mint). -/
inductive IbcExecuteMsg where
  | Increment
  | Transfer (receipient : String) (amount : Int)
  | Burn (amount : Int)
  | TransferFrom (owner recipient : String) (amount : Int)
  | IncreaseAllowance (spender : String) (amount : Int)
      (expires : Option Expiration)
  | DecreaseAllowance (spender : String) (amount : Int)
      (expires : Option Expiration)
  | Mint (receipient : String) (amount : Int)
  | BurnFrom (owner : String) (amount : Int)
  | Send (contract : String) (amount : Int) (msg : String)
  | SendFrom (owner contract : String) (amount : Int) (msg : String)
deriving DecidableEq

/-- Modelled from the spec: the outer packet payload and its decoding
(`from_binary`) live in library/serde code outside src/.  A payload either
decodes to a message or fails with a decode error (spec section 7,
PayloadDecodeFailure). -/
inductive PacketData where
  | valid (msg : IbcExecuteMsg)
  | invalid (desc : String)
deriving DecidableEq

/-- Modelled from the spec: `from_binary`, the decode step of
`do_ibc_packet_receive`. -/
def from_binary : PacketData → Except ContractError IbcExecuteMsg
  | .valid m => .ok m
  | .invalid d => .error (.std (.parseErr d))

structure IbcEndpoint where
  channel_id : String
deriving DecidableEq

structure IbcPacket where
  data : PacketData
  dest : IbcEndpoint
deriving DecidableEq

structure IbcPacketReceiveMsg where
  packet : IbcPacket
deriving DecidableEq

/-- ibc.rs `send_from` handler: delegates to `execute_send_from`; its
success response sets no acknowledgement. -/
def send_from (env : Env) (info : MessageInfo) (owner contract : String)
    (amount : Int) (msg : String) (channel : String) (s : Storage) :
    Outcome IbcReceiveResponse :=
  match execute_send_from env info owner contract amount msg channel s with
  | .err s1 e => .err s1 e
  | .panic => .panic
  | .ok s1 _ =>
    .ok s1 ((((IbcReceiveResponse.new.add_attribute "method" "send_from"
      ).add_attribute "owner" owner
      ).add_attribute "contract" contract
      ).add_attribute "amount" (toString amount))

/-- ibc.rs `decrease_allowance` handler.  The body at ibc.rs line 171
invokes `execute_increase_allowance`, not `execute_decrease_allowance`;
the success response sets no acknowledgement. -/
def decrease_allowance (env : Env) (info : MessageInfo) (spender : String)
    (amount : Int) (expires : Option Expiration) (channel : String)
    (s : Storage) : Outcome IbcReceiveResponse :=
  match execute_increase_allowance env info spender amount expires channel s with
  | .err s1 e => .err s1 e
  | .panic => .panic
  | .ok s1 _ =>
    .ok s1 ((((IbcReceiveResponse.new.add_attribute "method" "decrease_allowance"
      ).add_attribute "spender" spender
      ).add_attribute "amount" (toString amount)
      ).add_attribute "channel" channel)

/-- ibc.rs `increase_allowance` handler: delegates to
`execute_increase_allowance`; the success response sets no
acknowledgement. -/
def increase_allowance (env : Env) (info : MessageInfo) (spender : String)
    (amount : Int) (expires : Option Expiration) (channel : String)
    (s : Storage) : Outcome IbcReceiveResponse :=
  match execute_increase_allowance env info spender amount expires channel s with
  | .err s1 e => .err s1 e
  | .panic => .panic
  | .ok s1 _ =>
    .ok s1 ((((IbcReceiveResponse.new.add_attribute "method" "increase_allowance"
      ).add_attribute "spender" spender
      ).add_attribute "amount" (toString amount)
      ).add_attribute "channel" channel)

/-- ibc.rs `burn_from` handler: delegates to `execute_burn_from`; the
success response sets no acknowledgement. -/
def burn_from (env : Env) (info : MessageInfo) (owner : String)
    (amount : Int) (channel : String) (s : Storage) :
    Outcome IbcReceiveResponse :=
  match execute_burn_from env info owner amount channel s with
  | .err s1 e => .err s1 e
  | .panic => .panic
  | .ok s1 _ =>
    .ok s1 (((IbcReceiveResponse.new.add_attribute "action" "burn_from"
      ).add_attribute "from" owner
      ).add_attribute "amount" (toString amount))

/-- ibc.rs `mint` handler: delegates to `execute_mint` and sets the
success acknowledgement. -/
def mint (env : Env) (info : MessageInfo) (recipient : String)
    (amount : Int) (channel : String) (s : Storage) :
    Outcome IbcReceiveResponse :=
  match execute_mint env info recipient amount channel s with
  | .err s1 e => .err s1 e
  | .panic => .panic
  | .ok s1 _ =>
    .ok s1 (((((IbcReceiveResponse.new.add_attribute "method" "mint"
      ).add_attribute "recipient" recipient
      ).add_attribute "amount" (toString amount)
      ).add_attribute "channel" channel
      ).set_ack make_ack_success)

/-- ibc.rs `send` handler: delegates to `execute_send` and sets the
success acknowledgement. -/
def send (env : Env) (info : MessageInfo) (contract : String)
    (amount : Int) (msg : String) (channel : String) (s : Storage) :
    Outcome IbcReceiveResponse :=
  match execute_send env info contract amount msg channel s with
  | .err s1 e => .err s1 e
  | .panic => .panic
  | .ok s1 _ =>
    .ok s1 (((((IbcReceiveResponse.new.add_attribute "method" "send"
      ).add_attribute "contract" contract
      ).add_attribute "amount" (toString amount)
      ).add_attribute "channel" channel
      ).set_ack make_ack_success)

/-- ibc.rs `burn` handler: delegates to `execute_burn` and sets the
success acknowledgement. -/
def burn (env : Env) (info : MessageInfo) (amount : Int) (channel : String)
    (s : Storage) : Outcome IbcReceiveResponse :=
  match execute_burn env info amount channel s with
  | .err s1 e => .err s1 e
  | .panic => .panic
  | .ok s1 _ =>
    .ok s1 ((((IbcReceiveResponse.new.add_attribute "method" "execute_burn"
      ).add_attribute "amount" (toString amount)
      ).add_attribute "channel" channel
      ).set_ack make_ack_success)

/-- ibc.rs `transfer_from` handler: delegates to `execute_transfer_from`;
the success response sets no acknowledgement (note the `recepient`
attribute spelling of the source). -/
def transfer_from (env : Env) (info : MessageInfo)
    (owner recipient : String) (amount : Int) (channel : String)
    (s : Storage) : Outcome IbcReceiveResponse :=
  match execute_transfer_from env info owner recipient amount channel s with
  | .err s1 e => .err s1 e
  | .panic => .panic
  | .ok s1 _ =>
    .ok s1 (((((IbcReceiveResponse.new.add_attribute "method" "transfer_from"
      ).add_attribute "owner" owner
      ).add_attribute "recepient" recipient
      ).add_attribute "amount" (toString amount)
      ).add_attribute "channel" channel)

/-- ibc.rs `transfer` handler: delegates to `execute_transfer` and sets
the success acknowledgement. -/
def transfer (env : Env) (info : MessageInfo) (recipient : String)
    (amount : Int) (channel : String) (s : Storage) :
    Outcome IbcReceiveResponse :=
  match execute_transfer env info recipient amount channel s with
  | .err s1 e => .err s1 e
  | .panic => .panic
  | .ok s1 _ =>
    .ok s1 (((((IbcReceiveResponse.new.add_attribute "method" "execute_transfer"
      ).add_attribute "receipient" recipient
      ).add_attribute "amount" (toString amount)
      ).add_attribute "channel" channel
      ).set_ack make_ack_success)

/-- ibc.rs `execute_increment` handler: delegates to `try_increment` and
sets the success acknowledgement. -/
def execute_increment (channel : String) (s : Storage) :
    Outcome IbcReceiveResponse :=
  match try_increment channel s with
  | .err s1 e => .err s1 e
  | .panic => .panic
  | .ok s1 count =>
    .ok s1 ((((IbcReceiveResponse.new.add_attribute "method" "execute_increment"
      ).add_attribute "count" (toString count)
      ).set_ack make_ack_success))

/-- ibc.rs `do_ibc_packet_receive`: take the channel identifier from the
packet destination endpoint, decode the payload, and dispatch on the
message kind. -/
def do_ibc_packet_receive (env : Env) (info : MessageInfo)
    (msg : IbcPacketReceiveMsg) (s : Storage) : Outcome IbcReceiveResponse :=
  let channel := msg.packet.dest.channel_id
  match from_binary msg.packet.data with
  | .error e => .err s e
  | .ok m =>
    match m with
    | .Increment => execute_increment channel s
    | .Transfer receipient amount => transfer env info receipient amount channel s
    | .Burn amount => burn env info amount channel s
    | .TransferFrom owner recipient amount =>
      transfer_from env info owner recipient amount channel s
    | .IncreaseAllowance spender amount expires =>
      increase_allowance env info spender amount expires channel s
    | .DecreaseAllowance spender amount expires =>
      decrease_allowance env info spender amount expires channel s
    | .Mint receipient amount => mint env info receipient amount channel s
    | .BurnFrom owner amount => burn_from env info owner amount channel s
    | .Send contract amount m2 => send env info contract amount m2 channel s
    | .SendFrom owner contract amount m2 =>
      send_from env info owner contract amount m2 channel s

/-- ibc.rs `ibc_packet_receive` error branch: the response committed when
`do_ibc_packet_receive` returns an error. -/
def mkFailResponse (e : ContractError) : IbcReceiveResponse :=
  (((IbcReceiveResponse.new.add_attribute "method" "ibc_packet_receive"
    ).add_attribute "error" (errText e)
    ).set_ack (make_ack_fail (errText e)))

/-- ibc.rs `ibc_packet_receive`: wrap `do_ibc_packet_receive`; an error is
caught and converted into a committed response whose acknowledgement is
the failure ack carrying the error text.  (The Rust error type is `Never`:
the theorem below shows no `err` outcome is produced.) -/
def ibc_packet_receive (env : Env) (info : MessageInfo)
    (msg : IbcPacketReceiveMsg) (s : Storage) : Outcome IbcReceiveResponse :=
  match do_ibc_packet_receive env info msg s with
  | .ok s1 r => .ok s1 r
  | .err s1 e => .ok s1 (mkFailResponse e)
  | .panic => .panic

/-- Projection of a packet-receive outcome to the acknowledgement of the
committed response (`none` when no response was committed). -/
def ackOf : Outcome IbcReceiveResponse → Option (Option Ack)
  | .ok _ r => some r.ack
  | .err _ _ => none
  | .panic => none

/-- Projection of a packet-receive outcome to the committed primary
allowance record at a key (both `ok` and caught-`err` outcomes commit). -/
def committedAllowance (k : AKey) : Outcome IbcReceiveResponse →
    Option AllowanceResponse
  | .ok s _ => mapGet s.allowances k
  | .err s _ => mapGet s.allowances k
  | .panic => none

/-- Projection to the committed mirror allowance record at a key. -/
def committedMirror (k : AKey) : Outcome IbcReceiveResponse →
    Option AllowanceResponse
  | .ok s _ => mapGet s.allowances_spender k
  | .err s _ => mapGet s.allowances_spender k
  | .panic => none

/-- The mirror invariant of spec sections 3 and 8: for every
(channel, owner, spender) triple the spender-index record equals the
primary record, or both are absent. -/
def Mirror (s : Storage) : Prop :=
  ∀ c o sp : String,
    mapGet s.allowances_spender (c, sp, o) = mapGet s.allowances (c, o, sp)

/-- The six allowance-touching ledger operations of allowances.rs, for the
mirror-invariant theorem. -/
inductive LedgerOp where
  | increase (info : MessageInfo) (spender : String) (amount : Int)
      (expires : Option Expiration) (channel : String)
  | decrease (info : MessageInfo) (spender : String) (amount : Int)
      (expires : Option Expiration) (channel : String)
  | deduct (owner spender : String) (amount : Int) (channel : String)
  | transferFrom (info : MessageInfo) (owner recipient : String)
      (amount : Int) (channel : String)
  | burnFrom (info : MessageInfo) (owner : String) (amount : Int)
      (channel : String)
  | sendFrom (info : MessageInfo) (owner contract : String) (amount : Int)
      (msg : String) (channel : String)

/-- Forget the value of an outcome. -/
def Outcome.forget {α : Type} : Outcome α → Outcome Unit
  | .ok s _ => .ok s ()
  | .err s e => .err s e
  | .panic => .panic

/-- Run one ledger operation. -/
def runLedgerOp (env : Env) (op : LedgerOp) (s : Storage) : Outcome Unit :=
  match op with
  | .increase info sp amt exp ch =>
    (execute_increase_allowance env info sp amt exp ch s).forget
  | .decrease info sp amt exp ch =>
    (execute_decrease_allowance env info sp amt exp ch s).forget
  | .deduct o sp amt ch => (deduct_allowance o sp env.block amt ch s).forget
  | .transferFrom info o r amt ch =>
    (execute_transfer_from env info o r amt ch s).forget
  | .burnFrom info o amt ch => (execute_burn_from env info o amt ch s).forget
  | .sendFrom info o ct amt m ch =>
    (execute_send_from env info o ct amt m ch s).forget

/-- Sum of the balances recorded on one channel. -/
def chanSum (c : String) : List (BKey × Int) → Int
  | [] => 0
  | e :: t => (if e.1.1 = c then e.2 else 0) + chanSum c t

/-- The recorded total supply of a channel (zero when no token info). -/
def supplyOf (s : Storage) (c : String) : Int :=
  match mapGet s.token_info c with
  | some t => t.total_supply
  | none => 0

/-- The balance of an address on a channel (absence means zero). -/
def balanceOf (s : Storage) (c a : String) : Int :=
  (mapGet s.balances (c, a)).getD 0

/-- Well-formed balance store: unique keys and every recorded amount a
valid unsigned 128-bit value. -/
def balancesWF (l : List (BKey × Int)) : Prop :=
  nodupKeys l = true ∧ ∀ e ∈ l, 0 ≤ e.2 ∧ e.2 ≤ U128_MAX

/-- The supply invariant of spec section 8 for one channel: well-formed
balances whose channel sum equals the recorded total supply. -/
def LedgerInv (c : String) (s : Storage) : Prop :=
  balancesWF s.balances ∧ supplyOf s c = chanSum c s.balances

/-- The three channel-confined spend-on-behalf-of operations. -/
inductive Op9 where
  | transferFrom (info : MessageInfo) (owner recipient : String) (amount : Int)
  | burnFrom (info : MessageInfo) (owner : String) (amount : Int)
  | sendFrom (info : MessageInfo) (owner contract : String) (amount : Int)
      (msg : String)

/-- The amount an operation spends. -/
def Op9.amt : Op9 → Int
  | .transferFrom _ _ _ a => a
  | .burnFrom _ _ a => a
  | .sendFrom _ _ _ a _ => a

/-- The state committed by one spend-on-behalf-of packet on channel `c`:
an `ok` or caught-`err` outcome commits the storage it carries, a panic
aborts the call and commits nothing. -/
def applyChanOp (env : Env) (c : String) (s : Storage) (op : Op9) : Storage :=
  match (match op with
         | .transferFrom info o r a => execute_transfer_from env info o r a c
         | .burnFrom info o a => execute_burn_from env info o a c
         | .sendFrom info o ct a m => execute_send_from env info o ct a m c) s with
  | .ok s1 _ => s1
  | .err s1 _ => s1
  | .panic => s

/-- The state committed by a sequence of spend-on-behalf-of packets. -/
def applyChanOps (env : Env) (c : String) (s : Storage) :
    List Op9 → Storage
  | [] => s
  | op :: rest => applyChanOps env c (applyChanOp env c s op) rest

/-- Witness fixtures: a block environment, the empty store, and a store
holding one mirrored allowance of 10 (never expiring) and a balance. -/
def wEnv : Env := { block := { height := 5, time := 100 } }

def wEmpty : Storage :=
  { allowances := [], allowances_spender := [], balances := [],
    token_info := [], connection_counts := [] }

def wS : Storage :=
  { allowances := [(("c", "o", "sp"), { allowance := 10, expires := .never })],
    allowances_spender :=
      [(("c", "sp", "o"), { allowance := 10, expires := .never })],
    balances := [(("c", "o"), 100)],
    token_info := [],
    connection_counts := [] }

def wSExpired : Storage :=
  { allowances :=
      [(("c", "o", "sp"), { allowance := 10, expires := .at_height 3 })],
    allowances_spender :=
      [(("c", "sp", "o"), { allowance := 10, expires := .at_height 3 })],
    balances := [],
    token_info := [],
    connection_counts := [] }

def wBadPkt : IbcPacketReceiveMsg :=
  { packet := { data := .invalid "bad", dest := { channel_id := "c" } } }

def wPktDecrease : IbcPacketReceiveMsg :=
  { packet := { data := .valid (.DecreaseAllowance "sp" 4 none),
                dest := { channel_id := "c" } } }

def wPktTransferFrom : IbcPacketReceiveMsg :=
  { packet := { data := .valid (.TransferFrom "o" "r" 4),
                dest := { channel_id := "c" } } }

def wPktTransferFrom5 : IbcPacketReceiveMsg :=
  { packet := { data := .valid (.TransferFrom "o" "r" 5),
                dest := { channel_id := "c" } } }

/-- Store for the C4 evaluation: mirrored allowance of 10 but an owner
balance of only 2, so the allowance deduction succeeds and the balance
subtraction fails. -/
def wLowBal : Storage :=
  { allowances := [(("c", "o", "sp"), { allowance := 10, expires := .never })],
    allowances_spender :=
      [(("c", "sp", "o"), { allowance := 10, expires := .never })],
    balances := [(("c", "o"), 2)],
    token_info := [],
    connection_counts := [] }

/-- Store holding a mirrored allowance already at the top of the unsigned
128-bit range. -/
def wSMax : Storage :=
  { allowances :=
      [(("c", "o", "sp"), { allowance := U128_MAX, expires := .never })],
    allowances_spender :=
      [(("c", "sp", "o"), { allowance := U128_MAX, expires := .never })],
    balances := [], token_info := [], connection_counts := [] }

/-- Store for the C9 witness: supply 10 on channel c split between two
holders, plus a mirrored allowance of 10. -/
def wLedger : Storage :=
  { allowances := [(("c", "o", "sp"), { allowance := 10, expires := .never })],
    allowances_spender :=
      [(("c", "sp", "o"), { allowance := 10, expires := .never })],
    balances := [(("c", "o"), 7), (("c", "r"), 3)],
    token_info := [("c", { name := "t", symbol := "T", decimals := 6,
                           total_supply := 10, mint := none })],
    connection_counts := [] }

set_option maxRecDepth 100000

lemma mapGet_eraseKey {κ ν : Type} [DecidableEq κ] (l : List (κ × ν))
    (k k' : κ) :
    mapGet (eraseKey l k) k' = if k' = k then none else mapGet l k' := by
  induction l with
  | nil => simp [eraseKey, mapGet]
  | cons e t ih =>
    simp only [eraseKey]
    by_cases h1 : e.1 = k
    · rw [if_pos h1, ih]
      by_cases h2 : k' = k
      · simp [h2]
      · have h3 : ¬ e.1 = k' := by
          rw [h1]; exact fun hh => h2 hh.symm
        simp [mapGet, h2, h3]
    · rw [if_neg h1]
      simp only [mapGet, ih]
      by_cases h2 : e.1 = k'
      · have hk : ¬ k' = k := fun hh => h1 (h2.trans hh)
        simp [h2, hk]
      · simp [h2]

lemma mapGet_mapSet {κ ν : Type} [DecidableEq κ] (l : List (κ × ν))
    (k k' : κ) (v : ν) :
    mapGet (mapSet l k v) k' = if k' = k then some v else mapGet l k' := by
  simp only [mapSet, mapGet]
  by_cases h : k = k'
  · simp [h]
  · have h' : ¬ k' = k := fun hh => h hh.symm
    simp [h, h', mapGet_eraseKey]

lemma ALLOWANCES_update_ok {k : AKey}
    {f : Option AllowanceResponse → PureRes AllowanceResponse}
    {s s1 : Storage} {v : AllowanceResponse}
    (h : ALLOWANCES_update k f s = .ok s1 v) :
    f (mapGet s.allowances k) = .ok v ∧
      s1 = { s with allowances := mapSet s.allowances k v } := by
  unfold ALLOWANCES_update at h
  cases hf : f (mapGet s.allowances k) <;> rw [hf] at h <;> cases h <;> simp

lemma ALLOWANCES_update_err {k : AKey}
    {f : Option AllowanceResponse → PureRes AllowanceResponse}
    {s s1 : Storage} {e : ContractError}
    (h : ALLOWANCES_update k f s = .err s1 e) :
    f (mapGet s.allowances k) = .err e ∧ s1 = s := by
  unfold ALLOWANCES_update at h
  cases hf : f (mapGet s.allowances k) <;> rw [hf] at h <;> cases h <;> simp

lemma ALLOWANCES_SPENDER_update_ok {k : AKey}
    {f : Option AllowanceResponse → PureRes AllowanceResponse}
    {s s1 : Storage} {v : AllowanceResponse}
    (h : ALLOWANCES_SPENDER_update k f s = .ok s1 v) :
    f (mapGet s.allowances_spender k) = .ok v ∧
      s1 = { s with allowances_spender := mapSet s.allowances_spender k v } := by
  unfold ALLOWANCES_SPENDER_update at h
  cases hf : f (mapGet s.allowances_spender k) <;> rw [hf] at h <;> cases h <;> simp

lemma ALLOWANCES_SPENDER_update_err {k : AKey}
    {f : Option AllowanceResponse → PureRes AllowanceResponse}
    {s s1 : Storage} {e : ContractError}
    (h : ALLOWANCES_SPENDER_update k f s = .err s1 e) :
    f (mapGet s.allowances_spender k) = .err e ∧ s1 = s := by
  unfold ALLOWANCES_SPENDER_update at h
  cases hf : f (mapGet s.allowances_spender k) <;> rw [hf] at h <;> cases h <;> simp

lemma BALANCES_update_ok {k : BKey} {f : Option Int → PureRes Int}
    {s s1 : Storage} {v : Int}
    (h : BALANCES_update k f s = .ok s1 v) :
    f (mapGet s.balances k) = .ok v ∧
      s1 = { s with balances := mapSet s.balances k v } := by
  unfold BALANCES_update at h
  cases hf : f (mapGet s.balances k) <;> rw [hf] at h <;> cases h <;> simp

lemma BALANCES_update_err {k : BKey} {f : Option Int → PureRes Int}
    {s s1 : Storage} {e : ContractError}
    (h : BALANCES_update k f s = .err s1 e) :
    f (mapGet s.balances k) = .err e ∧ s1 = s := by
  unfold BALANCES_update at h
  cases hf : f (mapGet s.balances k) <;> rw [hf] at h <;> cases h <;> simp

lemma Mirror.ext {s s' : Storage} (h : Mirror s)
    (h1 : s'.allowances = s.allowances)
    (h2 : s'.allowances_spender = s.allowances_spender) : Mirror s' := by
  intro c o sp
  rw [h1, h2]
  exact h c o sp

lemma Mirror.set_pair {s : Storage} (h : Mirror s) (c o sp : String)
    (v : AllowanceResponse) :
    Mirror { s with
               allowances := mapSet s.allowances (c, o, sp) v,
               allowances_spender :=
                 mapSet s.allowances_spender (c, sp, o) v } := by
  intro c' o' sp'
  show mapGet (mapSet s.allowances_spender (c, sp, o) v) (c', sp', o')
      = mapGet (mapSet s.allowances (c, o, sp) v) (c', o', sp')
  rw [mapGet_mapSet, mapGet_mapSet]
  by_cases h1 : c' = c ∧ o' = o ∧ sp' = sp
  · obtain ⟨hc, ho, hsp⟩ := h1
    subst hc; subst ho; subst hsp
    simp
  · have e1 : ¬ ((c', sp', o') = (c, sp, o)) := by
      simp only [Prod.ext_iff]
      tauto
    have e2 : ¬ ((c', o', sp') = (c, o, sp)) := by
      simp only [Prod.ext_iff]
      tauto
    rw [if_neg e1, if_neg e2]
    exact h c' o' sp'

lemma Mirror.erase_pair {s : Storage} (h : Mirror s) (c o sp : String) :
    Mirror { s with
               allowances := eraseKey s.allowances (c, o, sp),
               allowances_spender :=
                 eraseKey s.allowances_spender (c, sp, o) } := by
  intro c' o' sp'
  show mapGet (eraseKey s.allowances_spender (c, sp, o)) (c', sp', o')
      = mapGet (eraseKey s.allowances (c, o, sp)) (c', o', sp')
  rw [mapGet_eraseKey, mapGet_eraseKey]
  by_cases h1 : c' = c ∧ o' = o ∧ sp' = sp
  · obtain ⟨hc, ho, hsp⟩ := h1
    subst hc; subst ho; subst hsp
    simp
  · have e1 : ¬ ((c', sp', o') = (c, sp, o)) := by
      simp only [Prod.ext_iff]
      tauto
    have e2 : ¬ ((c', o', sp') = (c, o, sp)) := by
      simp only [Prod.ext_iff]
      tauto
    rw [if_neg e1, if_neg e2]
    exact h c' o' sp'

/-- The primary-then-mirror update pattern of `deduct_allowance` preserves
the mirror invariant: under the invariant both closures see the same input,
so a completed pair writes the same value to both keys. -/
lemma deduct_ok_mirror {o sp : String} {b : BlockInfo} {amt : Int}
    {ch : String} {s s1 : Storage} {a : AllowanceResponse}
    (h : Mirror s)
    (hd : deduct_allowance o sp b amt ch s = .ok s1 a) : Mirror s1 := by
  unfold deduct_allowance at hd
  cases h1 : ALLOWANCES_update (ch, o, sp) (deduct_update_fn b amt) s with
  | panic => rw [h1] at hd; cases hd
  | err s' e => rw [h1] at hd; cases hd
  | ok s' v =>
    rw [h1] at hd
    obtain ⟨hf1, hs'⟩ := ALLOWANCES_update_ok h1
    obtain ⟨hf2, hs1⟩ := ALLOWANCES_SPENDER_update_ok hd
    subst hs'
    have hin : mapGet s.allowances_spender (ch, sp, o)
        = mapGet s.allowances (ch, o, sp) := h ch o sp
    have hav : a = v := by
      have : PureRes.ok (α := AllowanceResponse) a = .ok v := by
        rw [← hf2, ← hf1]
        show deduct_update_fn b amt (mapGet s.allowances_spender (ch, sp, o))
            = deduct_update_fn b amt (mapGet s.allowances (ch, o, sp))
        rw [hin]
      cases this
      rfl
    subst hav
    subst hs1
    exact Mirror.set_pair h ch o sp a

/-- `deduct_allowance` touches only the allowance maps: a completed call
leaves balances, token info and counters unchanged. -/
lemma deduct_ok_fields {o sp : String} {b : BlockInfo} {amt : Int}
    {ch : String} {s s1 : Storage} {a : AllowanceResponse}
    (hd : deduct_allowance o sp b amt ch s = .ok s1 a) :
    s1.balances = s.balances ∧ s1.token_info = s.token_info := by
  unfold deduct_allowance at hd
  cases h1 : ALLOWANCES_update (ch, o, sp) (deduct_update_fn b amt) s with
  | panic => rw [h1] at hd; cases hd
  | err s' e => rw [h1] at hd; cases hd
  | ok s' v =>
    rw [h1] at hd
    obtain ⟨_, hs'⟩ := ALLOWANCES_update_ok h1
    obtain ⟨_, hs1⟩ := ALLOWANCES_SPENDER_update_ok hd
    subst hs'
    subst hs1
    exact ⟨rfl, rfl⟩

/-- An errored `deduct_allowance` also leaves balances and token info
unchanged (its only writes are to the allowance maps). -/
lemma deduct_err_fields {o sp : String} {b : BlockInfo} {amt : Int}
    {ch : String} {s s1 : Storage} {e : ContractError}
    (hd : deduct_allowance o sp b amt ch s = .err s1 e) :
    s1.balances = s.balances ∧ s1.token_info = s.token_info := by
  unfold deduct_allowance at hd
  cases h1 : ALLOWANCES_update (ch, o, sp) (deduct_update_fn b amt) s with
  | panic => rw [h1] at hd; cases hd
  | err s' e' =>
    rw [h1] at hd
    obtain ⟨_, hs'⟩ := ALLOWANCES_update_err h1
    cases hd
    subst hs'
    exact ⟨rfl, rfl⟩
  | ok s' v =>
    rw [h1] at hd
    obtain ⟨_, hs'⟩ := ALLOWANCES_update_ok h1
    obtain ⟨_, hs1⟩ := ALLOWANCES_SPENDER_update_err hd
    subst hs'
    subst hs1
    exact ⟨rfl, rfl⟩

lemma increase_ok_mirror {env : Env} {info : MessageInfo} {spender : String}
    {amt : Int} {exp : Option Expiration} {ch : String} {s s2 : Storage}
    {r : Response} (h : Mirror s)
    (hx : execute_increase_allowance env info spender amt exp ch s = .ok s2 r) :
    Mirror s2 := by
  unfold execute_increase_allowance at hx
  by_cases hss : spender = info.sender
  · rw [if_pos hss] at hx; cases hx
  · rw [if_neg hss] at hx
    cases h1 : ALLOWANCES_update (ch, info.sender, spender)
        (increase_update_fn env.block amt exp) s with
    | panic => rw [h1] at hx; cases hx
    | err s' e => rw [h1] at hx; cases hx
    | ok s' v =>
      rw [h1] at hx
      dsimp only at hx
      cases h2 : ALLOWANCES_SPENDER_update (ch, spender, info.sender)
          (increase_update_fn env.block amt exp) s' with
      | panic => rw [h2] at hx; cases hx
      | err s'' e => rw [h2] at hx; cases hx
      | ok s'' v2 =>
        rw [h2] at hx
        cases hx
        obtain ⟨hf1, hs'⟩ := ALLOWANCES_update_ok h1
        obtain ⟨hf2, hs''⟩ := ALLOWANCES_SPENDER_update_ok h2
        subst hs'
        have hin : mapGet s.allowances_spender (ch, spender, info.sender)
            = mapGet s.allowances (ch, info.sender, spender) :=
          h ch info.sender spender
        have hv : v2 = v := by
          have heq : PureRes.ok (α := AllowanceResponse) v2 = .ok v := by
            rw [← hf2, ← hf1]
            show increase_update_fn env.block amt exp
                (mapGet s.allowances_spender (ch, spender, info.sender))
              = increase_update_fn env.block amt exp
                (mapGet s.allowances (ch, info.sender, spender))
            rw [hin]
          cases heq
          rfl
        subst hv
        subst hs''
        exact Mirror.set_pair h ch info.sender spender v2

lemma decrease_ok_mirror {env : Env} {info : MessageInfo} {spender : String}
    {amt : Int} {exp : Option Expiration} {ch : String} {s s2 : Storage}
    {r : Response} (h : Mirror s)
    (hx : execute_decrease_allowance env info spender amt exp ch s = .ok s2 r) :
    Mirror s2 := by
  unfold execute_decrease_allowance at hx
  by_cases hss : spender = info.sender
  · rw [if_pos hss] at hx; cases hx
  · rw [if_neg hss] at hx
    cases h0 : mapGet s.allowances (ch, info.sender, spender) with
    | none => rw [h0] at hx; cases hx
    | some a0 =>
      rw [h0] at hx
      dsimp only at hx
      by_cases hlt : amt < a0.allowance
      · rw [if_pos hlt] at hx
        cases hsub : u128_checked_sub a0.allowance amt with
        | err e => rw [hsub] at hx; cases hx
        | panic => rw [hsub] at hx; cases hx
        | ok n =>
          rw [hsub] at hx
          dsimp only at hx
          cases exp with
          | some ex =>
            by_cases hexp : ex.is_expired env.block
            · simp only [hexp, if_pos] at hx
              cases hx
            · simp only [hexp, Bool.false_eq_true, if_false] at hx
              cases hx
              exact Mirror.set_pair h ch info.sender spender _
          | none =>
            cases hx
            exact Mirror.set_pair h ch info.sender spender _
      · rw [if_neg hlt] at hx
        cases hx
        exact Mirror.erase_pair h ch info.sender spender

lemma transfer_from_ok_mirror {env : Env} {info : MessageInfo}
    {o r : String} {amt : Int} {ch : String} {s s3 : Storage} {resp : Response}
    (h : Mirror s)
    (hx : execute_transfer_from env info o r amt ch s = .ok s3 resp) :
    Mirror s3 := by
  unfold execute_transfer_from at hx
  cases h1 : deduct_allowance o info.sender env.block amt ch s with
  | err s1 e => rw [h1] at hx; cases hx
  | panic => rw [h1] at hx; cases hx
  | ok s1 a =>
    rw [h1] at hx
    dsimp only at hx
    have hm1 := deduct_ok_mirror h h1
    cases h2 : BALANCES_update (ch, o)
        (fun b => u128_checked_sub (b.getD 0) amt) s1 with
    | err s2 e => rw [h2] at hx; cases hx
    | panic => rw [h2] at hx; cases hx
    | ok s2 v =>
      rw [h2] at hx
      dsimp only at hx
      obtain ⟨_, hs2⟩ := BALANCES_update_ok h2
      cases h3 : BALANCES_update (ch, r)
          (fun b => match u128_add (b.getD 0) amt with
                    | some n => .ok n
                    | none => .panic) s2 with
      | err s3' e => rw [h3] at hx; cases hx
      | panic => rw [h3] at hx; cases hx
      | ok s3' v3 =>
        rw [h3] at hx
        cases hx
        obtain ⟨_, hs3⟩ := BALANCES_update_ok h3
        subst hs2
        subst hs3
        exact Mirror.ext hm1 rfl rfl

lemma burn_from_ok_mirror {env : Env} {info : MessageInfo}
    {o : String} {amt : Int} {ch : String} {s s3 : Storage} {resp : Response}
    (h : Mirror s)
    (hx : execute_burn_from env info o amt ch s = .ok s3 resp) :
    Mirror s3 := by
  unfold execute_burn_from at hx
  cases h1 : deduct_allowance o info.sender env.block amt ch s with
  | err s1 e => rw [h1] at hx; cases hx
  | panic => rw [h1] at hx; cases hx
  | ok s1 a =>
    rw [h1] at hx
    dsimp only at hx
    have hm1 := deduct_ok_mirror h h1
    cases h2 : BALANCES_update (ch, o)
        (fun b => u128_checked_sub (b.getD 0) amt) s1 with
    | err s2 e => rw [h2] at hx; cases hx
    | panic => rw [h2] at hx; cases hx
    | ok s2 v =>
      rw [h2] at hx
      dsimp only at hx
      obtain ⟨_, hs2⟩ := BALANCES_update_ok h2
      cases h3 : mapGet s2.token_info ch with
      | none => rw [h3] at hx; cases hx
      | some t =>
        rw [h3] at hx
        dsimp only at hx
        cases h4 : u128_sub t.total_supply amt with
        | none => rw [h4] at hx; cases hx
        | some n =>
          rw [h4] at hx
          cases hx
          subst hs2
          exact Mirror.ext hm1 rfl rfl

lemma send_from_ok_mirror {env : Env} {info : MessageInfo}
    {o ct : String} {amt : Int} {m ch : String} {s s3 : Storage}
    {resp : Response} (h : Mirror s)
    (hx : execute_send_from env info o ct amt m ch s = .ok s3 resp) :
    Mirror s3 := by
  unfold execute_send_from at hx
  cases h1 : deduct_allowance o info.sender env.block amt ch s with
  | err s1 e => rw [h1] at hx; cases hx
  | panic => rw [h1] at hx; cases hx
  | ok s1 a =>
    rw [h1] at hx
    dsimp only at hx
    have hm1 := deduct_ok_mirror h h1
    cases h2 : BALANCES_update (ch, o)
        (fun b => u128_checked_sub (b.getD 0) amt) s1 with
    | err s2 e => rw [h2] at hx; cases hx
    | panic => rw [h2] at hx; cases hx
    | ok s2 v =>
      rw [h2] at hx
      dsimp only at hx
      obtain ⟨_, hs2⟩ := BALANCES_update_ok h2
      cases h3 : BALANCES_update (ch, ct)
          (fun b => match u128_add (b.getD 0) amt with
                    | some n => .ok n
                    | none => .panic) s2 with
      | err s3' e => rw [h3] at hx; cases hx
      | panic => rw [h3] at hx; cases hx
      | ok s3' v3 =>
        rw [h3] at hx
        cases hx
        obtain ⟨_, hs3⟩ := BALANCES_update_ok h3
        subst hs2
        subst hs3
        exact Mirror.ext hm1 rfl rfl

/-- Characterization of a successful `deduct_allowance`: with both records
present, unexpired, and sufficient, it writes the decremented amount to
both keys (no deletion) and returns the decremented mirror record. -/
lemma deduct_allowance_ok_spec (s : Storage) (block : BlockInfo)
    (owner spender channel : String) (amount : Int)
    (a a2 : AllowanceResponse)
    (ha : mapGet s.allowances (channel, owner, spender) = some a)
    (ha2 : mapGet s.allowances_spender (channel, spender, owner) = some a2)
    (hexp : a.expires.is_expired block = false)
    (hexp2 : a2.expires.is_expired block = false)
    (hle : amount ≤ a.allowance) (hle2 : amount ≤ a2.allowance) :
    deduct_allowance owner spender block amount channel s =
      .ok { s with
              allowances := mapSet s.allowances (channel, owner, spender)
                { a with allowance := a.allowance - amount },
              allowances_spender := mapSet s.allowances_spender
                (channel, spender, owner)
                { a2 with allowance := a2.allowance - amount } }
        { a2 with allowance := a2.allowance - amount } := by
  unfold deduct_allowance ALLOWANCES_update ALLOWANCES_SPENDER_update
    deduct_update_fn u128_checked_sub
  rw [ha]
  simp only [hexp, Bool.false_eq_true, if_false, if_pos hle]
  rw [ha2]
  simp only [hexp2, Bool.false_eq_true, if_false, if_pos hle2]

/-- C7: deducting from an allowance whose expiration has elapsed fails with
Expired for every requested amount (zero and in-range amounts included),
because the expiration check precedes the amount-sufficiency check; a
successful deduction writes the decremented amount to both keys and keeps
the record even when it reaches exactly zero. -/
theorem c7_deduct_expired_precedence (s : Storage) (block : BlockInfo)
    (owner spender channel : String) (amount : Int) :
    (∀ a, mapGet s.allowances (channel, owner, spender) = some a →
      a.expires.is_expired block = true →
      deduct_allowance owner spender block amount channel s =
        .err s .expired) ∧
    (∀ a a2, mapGet s.allowances (channel, owner, spender) = some a →
      mapGet s.allowances_spender (channel, spender, owner) = some a2 →
      a.expires.is_expired block = false →
      a2.expires.is_expired block = false →
      amount ≤ a.allowance → amount ≤ a2.allowance →
      deduct_allowance owner spender block amount channel s =
        .ok { s with
                allowances := mapSet s.allowances (channel, owner, spender)
                  { a with allowance := a.allowance - amount },
                allowances_spender := mapSet s.allowances_spender
                  (channel, spender, owner)
                  { a2 with allowance := a2.allowance - amount } }
          { a2 with allowance := a2.allowance - amount }) := by
  constructor
  · intro a ha hexp
    unfold deduct_allowance ALLOWANCES_update deduct_update_fn
    rw [ha]
    simp [hexp]
  · intro a a2 ha ha2 hexp hexp2 hle hle2
    exact deduct_allowance_ok_spec s block owner spender channel amount
      a a2 ha ha2 hexp hexp2 hle hle2

/-- Witness for C7: the expired store rejects a zero-amount deduction with
Expired, and the live store deducts 10 to exactly zero on both keys
without deleting the record. -/
theorem c7_deduct_expired_precedence_witness :
    deduct_allowance "o" "sp" wEnv.block 0 "c" wSExpired =
      .err wSExpired .expired ∧
    deduct_allowance "o" "sp" wEnv.block 10 "c" wS =
      .ok { wS with
              allowances := mapSet wS.allowances ("c", "o", "sp")
                { allowance := 0, expires := .never },
              allowances_spender := mapSet wS.allowances_spender
                ("c", "sp", "o") { allowance := 0, expires := .never } }
        { allowance := 0, expires := .never } :=
  ⟨(c7_deduct_expired_precedence wSExpired wEnv.block "o" "sp" "c" 0).1
      { allowance := 10, expires := .at_height 3 } (by decide) (by decide),
   (c7_deduct_expired_precedence wS wEnv.block "o" "sp" "c" 10).2
      { allowance := 10, expires := .never }
      { allowance := 10, expires := .never }
      (by decide) (by decide) (by decide) (by decide) (by decide) (by decide)⟩

/-- C10: deducting zero from an existing, unexpired allowance succeeds and
leaves both the primary and the mirror record unchanged: deduction by zero
is an identity, not an error. -/
theorem c10_deduct_zero_is_identity (s : Storage) (block : BlockInfo)
    (owner spender channel : String) (a a2 : AllowanceResponse)
    (ha : mapGet s.allowances (channel, owner, spender) = some a)
    (ha2 : mapGet s.allowances_spender (channel, spender, owner) = some a2)
    (hexp : a.expires.is_expired block = false)
    (hexp2 : a2.expires.is_expired block = false)
    (hnn : 0 ≤ a.allowance) (hnn2 : 0 ≤ a2.allowance) :
    deduct_allowance owner spender block 0 channel s =
      .ok { s with
              allowances := mapSet s.allowances (channel, owner, spender) a,
              allowances_spender := mapSet s.allowances_spender
                (channel, spender, owner) a2 } a2 ∧
    mapGet (mapSet s.allowances (channel, owner, spender) a)
      (channel, owner, spender) = some a ∧
    mapGet (mapSet s.allowances_spender (channel, spender, owner) a2)
      (channel, spender, owner) = some a2 := by
  have hd := deduct_allowance_ok_spec s block owner spender channel 0
    a a2 ha ha2 hexp hexp2 hnn hnn2
  have ea : ({ a with allowance := a.allowance - 0 } : AllowanceResponse)
      = a := by
    cases a
    simp
  have ea2 : ({ a2 with allowance := a2.allowance - 0 } : AllowanceResponse)
      = a2 := by
    cases a2
    simp
  rw [ea, ea2] at hd
  refine ⟨hd, ?_, ?_⟩
  · rw [mapGet_mapSet]
    simp
  · rw [mapGet_mapSet]
    simp

/-- Witness for C10: deducting zero from the mirrored 10-allowance succeeds
and both records still read 10 with the same expiration. -/
theorem c10_deduct_zero_is_identity_witness :
    deduct_allowance "o" "sp" wEnv.block 0 "c" wS =
      .ok { wS with
              allowances := mapSet wS.allowances ("c", "o", "sp")
                { allowance := 10, expires := .never },
              allowances_spender := mapSet wS.allowances_spender
                ("c", "sp", "o") { allowance := 10, expires := .never } }
        { allowance := 10, expires := .never } ∧
    mapGet (mapSet wS.allowances ("c", "o", "sp")
        { allowance := 10, expires := .never }) ("c", "o", "sp") =
      some { allowance := 10, expires := .never } ∧
    mapGet (mapSet wS.allowances_spender ("c", "sp", "o")
        { allowance := 10, expires := .never }) ("c", "sp", "o") =
      some { allowance := 10, expires := .never } :=
  c10_deduct_zero_is_identity wS wEnv.block "o" "sp" "c"
    { allowance := 10, expires := .never }
    { allowance := 10, expires := .never }
    (by decide) (by decide) (by decide) (by decide) (by decide) (by decide)

/-- C8: for every (channel, owner, spender) triple, after every completed
allowance-touching ledger operation (increase, decrease, deduct, and the
spend-from operations built on deduct) the primary record and the mirror
record are either both absent or both present with equal value. -/
theorem c8_mirror_after_every_operation (env : Env) (op : LedgerOp)
    (s s' : Storage) (h : Mirror s)
    (hok : runLedgerOp env op s = .ok s' ()) : Mirror s' := by
  cases op with
  | increase info sp amt exp ch =>
    unfold runLedgerOp at hok
    dsimp only at hok
    cases hx : execute_increase_allowance env info sp amt exp ch s with
    | ok s2 r =>
      rw [hx] at hok
      cases hok
      exact increase_ok_mirror h hx
    | err s2 e => rw [hx] at hok; cases hok
    | panic => rw [hx] at hok; cases hok
  | decrease info sp amt exp ch =>
    unfold runLedgerOp at hok
    dsimp only at hok
    cases hx : execute_decrease_allowance env info sp amt exp ch s with
    | ok s2 r =>
      rw [hx] at hok
      cases hok
      exact decrease_ok_mirror h hx
    | err s2 e => rw [hx] at hok; cases hok
    | panic => rw [hx] at hok; cases hok
  | deduct o sp amt ch =>
    unfold runLedgerOp at hok
    dsimp only at hok
    cases hx : deduct_allowance o sp env.block amt ch s with
    | ok s2 r =>
      rw [hx] at hok
      cases hok
      exact deduct_ok_mirror h hx
    | err s2 e => rw [hx] at hok; cases hok
    | panic => rw [hx] at hok; cases hok
  | transferFrom info o r amt ch =>
    unfold runLedgerOp at hok
    dsimp only at hok
    cases hx : execute_transfer_from env info o r amt ch s with
    | ok s2 resp =>
      rw [hx] at hok
      cases hok
      exact transfer_from_ok_mirror h hx
    | err s2 e => rw [hx] at hok; cases hok
    | panic => rw [hx] at hok; cases hok
  | burnFrom info o amt ch =>
    unfold runLedgerOp at hok
    dsimp only at hok
    cases hx : execute_burn_from env info o amt ch s with
    | ok s2 resp =>
      rw [hx] at hok
      cases hok
      exact burn_from_ok_mirror h hx
    | err s2 e => rw [hx] at hok; cases hok
    | panic => rw [hx] at hok; cases hok
  | sendFrom info o ct amt m ch =>
    unfold runLedgerOp at hok
    dsimp only at hok
    cases hx : execute_send_from env info o ct amt m ch s with
    | ok s2 resp =>
      rw [hx] at hok
      cases hok
      exact send_from_ok_mirror h hx
    | err s2 e => rw [hx] at hok; cases hok
    | panic => rw [hx] at hok; cases hok

/-- Witness for C8: increasing an allowance by 5 from the empty (trivially
mirrored) store yields a store whose two indexes again mirror each other. -/
theorem c8_mirror_after_every_operation_witness :
    Mirror { allowances := [(("c", "o", "sp"),
                             { allowance := 5, expires := .never })],
             allowances_spender := [(("c", "sp", "o"),
                                     { allowance := 5, expires := .never })],
             balances := [], token_info := [], connection_counts := [] } :=
  c8_mirror_after_every_operation wEnv
    (.increase { sender := "o" } "sp" 5 none "c") wEmpty _
    (fun _ _ _ => rfl) (by decide)

/-- Counterexample for C6 as stated: (i) decreasing with no record in the
empty store fails with the storage not-found error, which is not the
NoAllowance error; (ii) decreasing 3 from a remaining allowance of 10 with
an already-elapsed supplied expiration fails with InvalidExpiration and
writes nothing, although the amount is strictly below the remaining
allowance. -/
theorem c6_decrease_allowance_cx :
    execute_decrease_allowance wEnv { sender := "o" } "sp" 4 none "c" wEmpty =
      .err wEmpty (.std .notFound) ∧
    ContractError.std .notFound ≠ ContractError.noAllowance ∧
    execute_decrease_allowance wEnv { sender := "o" } "sp" 3
      (some (.at_height 5)) "c" wS = .err wS .invalidExpiration :=
  ⟨by decide, by decide, by decide⟩

/-- C6 amended: decrease_allowance with owner distinct from spender fails
with a storage not-found error when no record exists; when the amount is
strictly below the remaining allowance it checked-subtracts and writes both
the primary and mirror keys, except that a supplied but already-elapsed
expiration fails with InvalidExpiration and writes nothing; when the amount
is greater than or equal to the remaining allowance it deletes both entries
entirely. -/
theorem c6_decrease_allowance_behavior (env : Env) (info : MessageInfo)
    (spender : String) (amount : Int) (expires : Option Expiration)
    (channel : String) (s : Storage) (hns : ¬ spender = info.sender) :
    (mapGet s.allowances (channel, info.sender, spender) = none →
      execute_decrease_allowance env info spender amount expires channel s =
        .err s (.std .notFound)) ∧
    (∀ a0, mapGet s.allowances (channel, info.sender, spender) = some a0 →
      amount < a0.allowance →
      execute_decrease_allowance env info spender amount expires channel s =
        match expires with
        | some exp =>
          if exp.is_expired env.block then .err s .invalidExpiration
          else
            .ok { s with
                    allowances := mapSet s.allowances
                      (channel, info.sender, spender)
                      { allowance := a0.allowance - amount, expires := exp },
                    allowances_spender := mapSet s.allowances_spender
                      (channel, spender, info.sender)
                      { allowance := a0.allowance - amount, expires := exp } }
              { attributes := [("action", "decrease_allowance"),
                               ("owner", info.sender),
                               ("spender", spender),
                               ("amount", toString amount)],
                messages := [] }
        | none =>
          .ok { s with
                  allowances := mapSet s.allowances
                    (channel, info.sender, spender)
                    { allowance := a0.allowance - amount,
                      expires := a0.expires },
                  allowances_spender := mapSet s.allowances_spender
                    (channel, spender, info.sender)
                    { allowance := a0.allowance - amount,
                      expires := a0.expires } }
            { attributes := [("action", "decrease_allowance"),
                             ("owner", info.sender),
                             ("spender", spender),
                             ("amount", toString amount)],
              messages := [] }) ∧
    (∀ a0, mapGet s.allowances (channel, info.sender, spender) = some a0 →
      a0.allowance ≤ amount →
      execute_decrease_allowance env info spender amount expires channel s =
        .ok { s with
                allowances := eraseKey s.allowances
                  (channel, info.sender, spender),
                allowances_spender := eraseKey s.allowances_spender
                  (channel, spender, info.sender) }
          { attributes := [("action", "decrease_allowance"),
                           ("owner", info.sender),
                           ("spender", spender),
                           ("amount", toString amount)],
            messages := [] }) := by
  refine ⟨?_, ?_, ?_⟩
  · intro h0
    unfold execute_decrease_allowance
    rw [if_neg hns, h0]
  · intro a0 h0 hlt
    unfold execute_decrease_allowance
    rw [if_neg hns, h0]
    dsimp only
    rw [if_pos hlt]
    have hsub : u128_checked_sub a0.allowance amount =
        .ok (a0.allowance - amount) := by
      unfold u128_checked_sub
      rw [if_pos (le_of_lt hlt)]
    rw [hsub]
    dsimp only
    cases expires with
    | some exp => simp [reverseKey]
    | none => simp [reverseKey]
  · intro a0 h0 hge
    unfold execute_decrease_allowance
    rw [if_neg hns, h0]
    dsimp only
    rw [if_neg (not_lt.mpr hge)]
    simp [reverseKey]

/-- Witness for the amended C6: against the empty store the not-found error;
decreasing 3 from 10 writes 7 to both keys; decreasing 10 from 10 removes
both entries. -/
theorem c6_decrease_allowance_behavior_witness :
    execute_decrease_allowance wEnv { sender := "o" } "sp" 4 none "c"
      wEmpty = .err wEmpty (.std .notFound) ∧
    execute_decrease_allowance wEnv { sender := "o" } "sp" 3 none "c" wS =
      .ok { wS with
              allowances := mapSet wS.allowances ("c", "o", "sp")
                { allowance := 7, expires := .never },
              allowances_spender := mapSet wS.allowances_spender
                ("c", "sp", "o") { allowance := 7, expires := .never } }
        { attributes := [("action", "decrease_allowance"), ("owner", "o"),
                         ("spender", "sp"), ("amount", toString (3 : Int))],
          messages := [] } ∧
    execute_decrease_allowance wEnv { sender := "o" } "sp" 10 none "c" wS =
      .ok { wS with
              allowances := eraseKey wS.allowances ("c", "o", "sp"),
              allowances_spender := eraseKey wS.allowances_spender
                ("c", "sp", "o") }
        { attributes := [("action", "decrease_allowance"), ("owner", "o"),
                         ("spender", "sp"), ("amount", toString (10 : Int))],
          messages := [] } :=
  ⟨(c6_decrease_allowance_behavior wEnv { sender := "o" } "sp" 4 none "c"
      wEmpty (by decide)).1 rfl,
   (c6_decrease_allowance_behavior wEnv { sender := "o" } "sp" 3 none "c"
      wS (by decide)).2.1 { allowance := 10, expires := .never }
      (by decide) (by decide),
   (c6_decrease_allowance_behavior wEnv { sender := "o" } "sp" 10 none "c"
      wS (by decide)).2.2 { allowance := 10, expires := .never }
      (by decide) (by decide)⟩

/-- C1: the packet dispatcher catches every returned error: no packet
receive produces a transport-level `err` outcome, and whenever the inner
dispatch returns an error the committed response is the one built by the
catch branch, whose acknowledgement is the failure ack carrying the error
text. -/
theorem c1_receive_catches_every_error (env : Env) (info : MessageInfo)
    (msg : IbcPacketReceiveMsg) (s : Storage) :
    (∀ s' e, ibc_packet_receive env info msg s ≠ .err s' e) ∧
    (∀ s' e, do_ibc_packet_receive env info msg s = .err s' e →
      ibc_packet_receive env info msg s = .ok s' (mkFailResponse e) ∧
      (mkFailResponse e).ack = some (Ack.fail (errText e))) := by
  constructor
  · intro s' e hcontra
    unfold ibc_packet_receive at hcontra
    cases hd : do_ibc_packet_receive env info msg s <;>
      rw [hd] at hcontra <;> cases hcontra
  · intro s' e hd
    unfold ibc_packet_receive
    rw [hd]
    exact ⟨rfl, rfl⟩

/-- Witness for C1: a packet whose payload fails to decode is caught and
acknowledged with the failure ack carrying the decode error text. -/
theorem c1_receive_catches_every_error_witness :
    ibc_packet_receive wEnv { sender := "x" } wBadPkt wEmpty ≠
      Outcome.err wEmpty (.std (.parseErr "bad")) ∧
    (ibc_packet_receive wEnv { sender := "x" } wBadPkt wEmpty =
      .ok wEmpty (mkFailResponse (.std (.parseErr "bad"))) ∧
      (mkFailResponse (.std (.parseErr "bad"))).ack =
        some (Ack.fail (errText (.std (.parseErr "bad"))))) :=
  ⟨(c1_receive_catches_every_error wEnv { sender := "x" } wBadPkt wEmpty).1
      wEmpty (.std (.parseErr "bad")),
   (c1_receive_catches_every_error wEnv { sender := "x" } wBadPkt wEmpty).2
      wEmpty (.std (.parseErr "bad")) (by decide)⟩

/-- Code behavior at the C2 failing input: a DecreaseAllowance packet for 4
against a remaining mirrored allowance of 10 commits an allowance of 14 on
both indexes, because the ibc.rs decrease_allowance handler invokes
execute_increase_allowance (a decrease would have left 6). -/
theorem c2_decrease_packet_increases_allowance :
    committedAllowance ("c", "o", "sp")
        (ibc_packet_receive wEnv { sender := "o" } wPktDecrease wS) =
      some { allowance := 14, expires := .never } ∧
    committedMirror ("c", "sp", "o")
        (ibc_packet_receive wEnv { sender := "o" } wPktDecrease wS) =
      some { allowance := 14, expires := .never } :=
  ⟨by decide, by decide⟩

/-- Code behavior at the C3 failing input: a TransferFrom packet that fully
succeeds (the committed allowance drops from 10 to 6) is committed with no
acknowledgement set at all: the response carries neither a success nor a
failure ack. -/
theorem c3_successful_transfer_from_sets_no_ack :
    ackOf (ibc_packet_receive wEnv { sender := "sp" } wPktTransferFrom wS) =
      some none ∧
    committedAllowance ("c", "o", "sp")
        (ibc_packet_receive wEnv { sender := "sp" } wPktTransferFrom wS) =
      some { allowance := 6, expires := .never } :=
  ⟨by decide, by decide⟩

/-- Code behavior at the C4 failing input: with a mirrored allowance of 10
and an owner balance of 2, a TransferFrom packet for 5 is acknowledged as
failed (the balance subtraction fails), yet the committed state shows the
allowance deduction to 5 on both indexes rather than the prior 10. -/
theorem c4_failed_transfer_from_commits_deduction :
    ackOf (ibc_packet_receive wEnv { sender := "sp" } wPktTransferFrom5
        wLowBal) =
      some (some (.fail (errText (.std .overflow)))) ∧
    committedAllowance ("c", "o", "sp")
        (ibc_packet_receive wEnv { sender := "sp" } wPktTransferFrom5
          wLowBal) =
      some { allowance := 5, expires := .never } ∧
    committedMirror ("c", "sp", "o")
        (ibc_packet_receive wEnv { sender := "sp" } wPktTransferFrom5
          wLowBal) =
      some { allowance := 5, expires := .never } ∧
    mapGet wLowBal.allowances ("c", "o", "sp") =
      some { allowance := 10, expires := .never } :=
  ⟨by decide, by decide, by decide, by decide⟩

/-- Code behavior at the C5 failing input: increasing an allowance already
at the unsigned 128-bit maximum by 1 panics (the unchecked Uint128
addition), rather than failing with an Overflow error; below the width the
summed record is written to both the primary and the mirror key. -/
theorem c5_increase_allowance_overflow_panics :
    execute_increase_allowance wEnv { sender := "o" } "sp" 1 none "c" wSMax =
      .panic ∧
    execute_increase_allowance wEnv { sender := "o" } "sp" 5 none "c" wS =
      .ok { wS with
              allowances := mapSet wS.allowances ("c", "o", "sp")
                { allowance := 15, expires := .never },
              allowances_spender := mapSet wS.allowances_spender
                ("c", "sp", "o") { allowance := 15, expires := .never } }
        { attributes := [("action", "increase_allowance"), ("owner", "o"),
                         ("spender", "sp"), ("amount", toString (5 : Int))],
          messages := [] } :=
  ⟨by decide, by decide⟩

lemma chanSum_cons (c : String) (e : BKey × Int) (t : List (BKey × Int)) :
    chanSum c (e :: t) = (if e.1.1 = c then e.2 else 0) + chanSum c t := rfl

lemma mapGet_cons {κ ν : Type} [DecidableEq κ] (e : κ × ν)
    (t : List (κ × ν)) (k : κ) :
    mapGet (e :: t) k = if e.1 = k then some e.2 else mapGet t k := rfl

lemma eraseKey_cons {κ ν : Type} [DecidableEq κ] (e : κ × ν)
    (t : List (κ × ν)) (k : κ) :
    eraseKey (e :: t) k =
      if e.1 = k then eraseKey t k else e :: eraseKey t k := rfl

lemma chanSum_nonneg {c : String} {l : List (BKey × Int)}
    (h : ∀ e ∈ l, 0 ≤ e.2) : 0 ≤ chanSum c l := by
  induction l with
  | nil => simp [chanSum]
  | cons e t ih =>
    have he := h e (by simp)
    have ht : ∀ x ∈ t, 0 ≤ x.2 := fun x hx => h x (by simp [hx])
    have := ih ht
    rw [chanSum_cons]
    by_cases hc : e.1.1 = c
    · rw [if_pos hc]; omega
    · rw [if_neg hc]; omega

lemma eraseKey_of_get_none {κ ν : Type} [DecidableEq κ]
    {l : List (κ × ν)} {k : κ} (h : mapGet l k = none) :
    eraseKey l k = l := by
  induction l with
  | nil => rfl
  | cons e t ih =>
    unfold mapGet at h
    by_cases hk : e.1 = k
    · rw [if_pos hk] at h; cases h
    · rw [if_neg hk] at h
      unfold eraseKey
      rw [if_neg hk, ih h]

lemma chanSum_eraseKey {c a : String} {l : List (BKey × Int)}
    (h : nodupKeys l = true) :
    chanSum c (eraseKey l (c, a)) =
      chanSum c l - (mapGet l (c, a)).getD 0 := by
  induction l with
  | nil => simp [eraseKey, chanSum, mapGet]
  | cons e t ih =>
    unfold nodupKeys at h
    rw [Bool.and_eq_true, Option.isNone_iff_eq_none] at h
    obtain ⟨hnone, hnd⟩ := h
    rw [eraseKey_cons, mapGet_cons, chanSum_cons]
    by_cases hk : e.1 = (c, a)
    · rw [if_pos hk, if_pos hk]
      have hnone2 : mapGet t (c, a) = none := by rw [← hk]; exact hnone
      rw [eraseKey_of_get_none hnone2]
      have hc : e.1.1 = c := by rw [hk]
      rw [if_pos hc]
      simp
    · rw [if_neg hk, if_neg hk, chanSum_cons, ih hnd]
      omega

lemma mapGet_mem {κ ν : Type} [DecidableEq κ] {l : List (κ × ν)} {k : κ}
    {v : ν} (h : mapGet l k = some v) : (k, v) ∈ l := by
  induction l with
  | nil => cases h
  | cons e t ih =>
    unfold mapGet at h
    by_cases hk : e.1 = k
    · rw [if_pos hk] at h
      cases h
      rw [← hk]
      exact List.mem_cons_self e t
    · rw [if_neg hk] at h
      exact List.mem_cons_of_mem e (ih h)

lemma getD_nonneg {l : List (BKey × Int)} {k : BKey}
    (h : ∀ e ∈ l, 0 ≤ e.2) : 0 ≤ (mapGet l k).getD 0 := by
  cases hg : mapGet l k with
  | none => simp
  | some v =>
    have := h (k, v) (mapGet_mem hg)
    simpa using this

lemma getD_le_max {l : List (BKey × Int)} {k : BKey}
    (h : ∀ e ∈ l, e.2 ≤ U128_MAX) : (mapGet l k).getD 0 ≤ U128_MAX := by
  cases hg : mapGet l k with
  | none =>
    simp only [Option.getD_none]
    unfold U128_MAX
    positivity
  | some v =>
    have := h (k, v) (mapGet_mem hg)
    simpa using this

lemma getD_le_chanSum {c a : String} {l : List (BKey × Int)}
    (hnd : nodupKeys l = true) (hpos : ∀ e ∈ l, 0 ≤ e.2) :
    (mapGet l (c, a)).getD 0 ≤ chanSum c l := by
  induction l with
  | nil => simp [mapGet, chanSum]
  | cons e t ih =>
    unfold nodupKeys at hnd
    rw [Bool.and_eq_true, Option.isNone_iff_eq_none] at hnd
    obtain ⟨_, hnd⟩ := hnd
    have he := hpos e (by simp)
    have ht : ∀ x ∈ t, 0 ≤ x.2 := fun x hx => hpos x (by simp [hx])
    have hst := chanSum_nonneg (c := c) ht
    rw [mapGet_cons, chanSum_cons]
    by_cases hk : e.1 = (c, a)
    · rw [if_pos hk]
      have hc : e.1.1 = c := by rw [hk]
      rw [if_pos hc]
      simp only [Option.getD_some]
      omega
    · rw [if_neg hk]
      have := ih hnd ht
      by_cases hc : e.1.1 = c
      · rw [if_pos hc]; omega
      · rw [if_neg hc]; omega

lemma nodup_eraseKey {κ ν : Type} [DecidableEq κ] {l : List (κ × ν)}
    {k : κ} (h : nodupKeys l = true) : nodupKeys (eraseKey l k) = true := by
  induction l with
  | nil => rfl
  | cons e t ih =>
    unfold nodupKeys at h
    rw [Bool.and_eq_true, Option.isNone_iff_eq_none] at h
    obtain ⟨hnone, hnd⟩ := h
    unfold eraseKey
    by_cases hk : e.1 = k
    · rw [if_pos hk]
      exact ih hnd
    · rw [if_neg hk]
      unfold nodupKeys
      rw [Bool.and_eq_true, Option.isNone_iff_eq_none]
      refine ⟨?_, ih hnd⟩
      rw [mapGet_eraseKey]
      by_cases h2 : e.1 = k
      · exact absurd h2 hk
      · rw [if_neg h2]
        exact hnone

lemma nodup_mapSet {κ ν : Type} [DecidableEq κ] {l : List (κ × ν)}
    {k : κ} {v : ν} (h : nodupKeys l = true) :
    nodupKeys (mapSet l k v) = true := by
  unfold mapSet nodupKeys
  rw [Bool.and_eq_true, Option.isNone_iff_eq_none]
  refine ⟨?_, nodup_eraseKey h⟩
  rw [mapGet_eraseKey]
  simp

lemma chanSum_mapSet {c a : String} {l : List (BKey × Int)} {v : Int}
    (h : nodupKeys l = true) :
    chanSum c (mapSet l (c, a) v) =
      v + (chanSum c l - (mapGet l (c, a)).getD 0) := by
  unfold mapSet
  rw [chanSum_cons, chanSum_eraseKey h]
  simp

lemma mem_eraseKey {κ ν : Type} [DecidableEq κ] {l : List (κ × ν)}
    {k : κ} {e : κ × ν} (h : e ∈ eraseKey l k) : e ∈ l := by
  induction l with
  | nil => cases h
  | cons x t ih =>
    unfold eraseKey at h
    by_cases hk : x.1 = k
    · rw [if_pos hk] at h
      exact List.mem_cons_of_mem x (ih h)
    · rw [if_neg hk] at h
      rcases List.mem_cons.mp h with h1 | h2
      · rw [h1]; simp
      · exact List.mem_cons_of_mem x (ih h2)

lemma bounds_mapSet {l : List (BKey × Int)} {k : BKey} {v : Int}
    (h : ∀ e ∈ l, 0 ≤ e.2 ∧ e.2 ≤ U128_MAX) (hv : 0 ≤ v ∧ v ≤ U128_MAX) :
    ∀ e ∈ mapSet l k v, 0 ≤ e.2 ∧ e.2 ≤ U128_MAX := by
  intro e he
  unfold mapSet at he
  rcases List.mem_cons.mp he with h1 | h2
  · rw [h1]; exact hv
  · exact h e (mem_eraseKey h2)

lemma supplyOf_ext {s s' : Storage} {c : String}
    (h : s'.token_info = s.token_info) : supplyOf s' c = supplyOf s c := by
  unfold supplyOf
  rw [h]

lemma LedgerInv_ext {c : String} {s s' : Storage} (h : LedgerInv c s)
    (h1 : s'.balances = s.balances) (h2 : s'.token_info = s.token_info) :
    LedgerInv c s' := by
  obtain ⟨hwf, hsum⟩ := h
  refine ⟨?_, ?_⟩
  · rw [show s'.balances = s.balances from h1]
    exact hwf
  · rw [supplyOf_ext h2, h1]
    exact hsum

/-- A successful checked subtraction of `amt` from the `(c, o)` balance:
well-formedness is preserved, the channel sum drops by exactly `amt`,
token info is untouched, and the old balance was at least `amt`. -/
lemma balances_sub_ok {c o : String} {amt : Int} {s1 s2 : Storage} {v : Int}
    (h : BALANCES_update (c, o)
        (fun b => u128_checked_sub (b.getD 0) amt) s1 = .ok s2 v)
    (hwf : balancesWF s1.balances) (hamt : 0 ≤ amt) :
    balancesWF s2.balances ∧
    chanSum c s2.balances = chanSum c s1.balances - amt ∧
    s2.token_info = s1.token_info ∧
    amt ≤ (mapGet s1.balances (c, o)).getD 0 := by
  obtain ⟨hf, hs2⟩ := BALANCES_update_ok h
  unfold u128_checked_sub at hf
  by_cases hle : amt ≤ (mapGet s1.balances (c, o)).getD 0
  · rw [if_pos hle] at hf
    cases hf
    obtain ⟨hnd, hbd⟩ := hwf
    have hnn := getD_nonneg (k := (c, o)) (fun e he => (hbd e he).1)
    have hmx := getD_le_max (k := (c, o)) (fun e he => (hbd e he).2)
    subst hs2
    refine ⟨⟨nodup_mapSet hnd, bounds_mapSet hbd ⟨by omega, by omega⟩⟩,
            ?_, rfl, hle⟩
    show chanSum c (mapSet s1.balances (c, o) _) = _
    rw [chanSum_mapSet hnd]
    omega
  · rw [if_neg hle] at hf
    cases hf

/-- A successful panicking addition of `amt` to the `(c, r)` balance:
well-formedness is preserved, the channel sum grows by exactly `amt`, and
token info is untouched. -/
lemma balances_add_ok {c r : String} {amt : Int} {s2 s3 : Storage} {v : Int}
    (h : BALANCES_update (c, r)
        (fun b => match u128_add (b.getD 0) amt with
                  | some n => .ok n
                  | none => .panic) s2 = .ok s3 v)
    (hwf : balancesWF s2.balances) (hamt : 0 ≤ amt) :
    balancesWF s3.balances ∧
    chanSum c s3.balances = chanSum c s2.balances + amt ∧
    s3.token_info = s2.token_info := by
  obtain ⟨hf, hs3⟩ := BALANCES_update_ok h
  unfold u128_add at hf
  by_cases hle : (mapGet s2.balances (c, r)).getD 0 + amt ≤ U128_MAX
  · rw [if_pos hle] at hf
    cases hf
    obtain ⟨hnd, hbd⟩ := hwf
    have hnn := getD_nonneg (k := (c, r)) (fun e he => (hbd e he).1)
    subst hs3
    refine ⟨⟨nodup_mapSet hnd, bounds_mapSet hbd ⟨by omega, by omega⟩⟩, ?_, rfl⟩
    show chanSum c (mapSet s2.balances (c, r) _) = _
    rw [chanSum_mapSet hnd]
    omega
  · rw [if_neg hle] at hf
    cases hf

/-- The panicking-addition closure never returns an error, so neither does
its balance update. -/
lemma balances_add_no_err {c r : String} {amt : Int} {s2 s' : Storage}
    {e : ContractError}
    (h : BALANCES_update (c, r)
        (fun b => match u128_add (b.getD 0) amt with
                  | some n => .ok n
                  | none => .panic) s2 = .err s' e) : False := by
  obtain ⟨hf, _⟩ := BALANCES_update_err h
  cases hadd : u128_add ((mapGet s2.balances (c, r)).getD 0) amt with
  | some n => rw [hadd] at hf; cases hf
  | none => rw [hadd] at hf; cases hf

lemma supplyOf_set_token {s : Storage} {c : String} {t1 : TokenInfo} :
    supplyOf { s with token_info := mapSet s.token_info c t1 } c =
      t1.total_supply := by
  unfold supplyOf
  dsimp only
  rw [mapGet_mapSet]
  simp

lemma transfer_from_ok_inv {env : Env} {info : MessageInfo} {o r : String}
    {amt : Int} {c : String} {s s3 : Storage} {resp : Response}
    (hx : execute_transfer_from env info o r amt c s = .ok s3 resp)
    (h : LedgerInv c s) (hamt : 0 ≤ amt) : LedgerInv c s3 := by
  unfold execute_transfer_from at hx
  cases h1 : deduct_allowance o info.sender env.block amt c s with
  | err s1 e => rw [h1] at hx; cases hx
  | panic => rw [h1] at hx; cases hx
  | ok s1 a =>
    rw [h1] at hx
    dsimp only at hx
    obtain ⟨hb1, ht1⟩ := deduct_ok_fields h1
    have hInv1 : LedgerInv c s1 := LedgerInv_ext h hb1 ht1
    cases h2 : BALANCES_update (c, o)
        (fun b => u128_checked_sub (b.getD 0) amt) s1 with
    | err s2 e => rw [h2] at hx; cases hx
    | panic => rw [h2] at hx; cases hx
    | ok s2 v =>
      rw [h2] at hx
      dsimp only at hx
      obtain ⟨hwf2, hsum2, ht2, hle⟩ := balances_sub_ok h2 hInv1.1 hamt
      cases h3 : BALANCES_update (c, r)
          (fun b => match u128_add (b.getD 0) amt with
                    | some n => .ok n
                    | none => .panic) s2 with
      | err s3' e => rw [h3] at hx; cases hx
      | panic => rw [h3] at hx; cases hx
      | ok s3' v3 =>
        rw [h3] at hx
        cases hx
        obtain ⟨hwf3, hsum3, ht3⟩ := balances_add_ok h3 hwf2 hamt
        refine ⟨hwf3, ?_⟩
        have hsup3 : supplyOf s3 c = supplyOf s1 c := by
          rw [supplyOf_ext ht3, supplyOf_ext ht2]
        rw [hsup3, hInv1.2]
        omega

lemma transfer_from_err_inv {env : Env} {info : MessageInfo} {o r : String}
    {amt : Int} {c : String} {s s' : Storage} {e : ContractError}
    (hx : execute_transfer_from env info o r amt c s = .err s' e)
    (h : LedgerInv c s) (_hamt : 0 ≤ amt) : LedgerInv c s' := by
  unfold execute_transfer_from at hx
  cases h1 : deduct_allowance o info.sender env.block amt c s with
  | panic => rw [h1] at hx; cases hx
  | err s1 e0 =>
    rw [h1] at hx
    cases hx
    exact LedgerInv_ext h (deduct_err_fields h1).1 (deduct_err_fields h1).2
  | ok s1 a =>
    rw [h1] at hx
    dsimp only at hx
    have hInv1 : LedgerInv c s1 :=
      LedgerInv_ext h (deduct_ok_fields h1).1 (deduct_ok_fields h1).2
    cases h2 : BALANCES_update (c, o)
        (fun b => u128_checked_sub (b.getD 0) amt) s1 with
    | panic => rw [h2] at hx; cases hx
    | err s2 e0 =>
      rw [h2] at hx
      cases hx
      rw [(BALANCES_update_err h2).2]
      exact hInv1
    | ok s2 v =>
      rw [h2] at hx
      dsimp only at hx
      cases h3 : BALANCES_update (c, r)
          (fun b => match u128_add (b.getD 0) amt with
                    | some n => .ok n
                    | none => .panic) s2 with
      | ok s3' v3 => rw [h3] at hx; cases hx
      | panic => rw [h3] at hx; cases hx
      | err s3' e3 => exact absurd h3 (fun hh => balances_add_no_err hh)

lemma send_from_ok_inv {env : Env} {info : MessageInfo} {o ct : String}
    {amt : Int} {m c : String} {s s3 : Storage} {resp : Response}
    (hx : execute_send_from env info o ct amt m c s = .ok s3 resp)
    (h : LedgerInv c s) (hamt : 0 ≤ amt) : LedgerInv c s3 := by
  unfold execute_send_from at hx
  cases h1 : deduct_allowance o info.sender env.block amt c s with
  | err s1 e => rw [h1] at hx; cases hx
  | panic => rw [h1] at hx; cases hx
  | ok s1 a =>
    rw [h1] at hx
    dsimp only at hx
    obtain ⟨hb1, ht1⟩ := deduct_ok_fields h1
    have hInv1 : LedgerInv c s1 := LedgerInv_ext h hb1 ht1
    cases h2 : BALANCES_update (c, o)
        (fun b => u128_checked_sub (b.getD 0) amt) s1 with
    | err s2 e => rw [h2] at hx; cases hx
    | panic => rw [h2] at hx; cases hx
    | ok s2 v =>
      rw [h2] at hx
      dsimp only at hx
      obtain ⟨hwf2, hsum2, ht2, hle⟩ := balances_sub_ok h2 hInv1.1 hamt
      cases h3 : BALANCES_update (c, ct)
          (fun b => match u128_add (b.getD 0) amt with
                    | some n => .ok n
                    | none => .panic) s2 with
      | err s3' e => rw [h3] at hx; cases hx
      | panic => rw [h3] at hx; cases hx
      | ok s3' v3 =>
        rw [h3] at hx
        cases hx
        obtain ⟨hwf3, hsum3, ht3⟩ := balances_add_ok h3 hwf2 hamt
        refine ⟨hwf3, ?_⟩
        have hsup3 : supplyOf s3 c = supplyOf s1 c := by
          rw [supplyOf_ext ht3, supplyOf_ext ht2]
        rw [hsup3, hInv1.2]
        omega

lemma send_from_err_inv {env : Env} {info : MessageInfo} {o ct : String}
    {amt : Int} {m c : String} {s s' : Storage} {e : ContractError}
    (hx : execute_send_from env info o ct amt m c s = .err s' e)
    (h : LedgerInv c s) (_hamt : 0 ≤ amt) : LedgerInv c s' := by
  unfold execute_send_from at hx
  cases h1 : deduct_allowance o info.sender env.block amt c s with
  | panic => rw [h1] at hx; cases hx
  | err s1 e0 =>
    rw [h1] at hx
    cases hx
    exact LedgerInv_ext h (deduct_err_fields h1).1 (deduct_err_fields h1).2
  | ok s1 a =>
    rw [h1] at hx
    dsimp only at hx
    have hInv1 : LedgerInv c s1 :=
      LedgerInv_ext h (deduct_ok_fields h1).1 (deduct_ok_fields h1).2
    cases h2 : BALANCES_update (c, o)
        (fun b => u128_checked_sub (b.getD 0) amt) s1 with
    | panic => rw [h2] at hx; cases hx
    | err s2 e0 =>
      rw [h2] at hx
      cases hx
      rw [(BALANCES_update_err h2).2]
      exact hInv1
    | ok s2 v =>
      rw [h2] at hx
      dsimp only at hx
      cases h3 : BALANCES_update (c, ct)
          (fun b => match u128_add (b.getD 0) amt with
                    | some n => .ok n
                    | none => .panic) s2 with
      | ok s3' v3 => rw [h3] at hx; cases hx
      | panic => rw [h3] at hx; cases hx
      | err s3' e3 => exact absurd h3 (fun hh => balances_add_no_err hh)

lemma burn_from_ok_inv {env : Env} {info : MessageInfo} {o : String}
    {amt : Int} {c : String} {s s3 : Storage} {resp : Response}
    (hx : execute_burn_from env info o amt c s = .ok s3 resp)
    (h : LedgerInv c s) (hamt : 0 ≤ amt) : LedgerInv c s3 := by
  unfold execute_burn_from at hx
  cases h1 : deduct_allowance o info.sender env.block amt c s with
  | err s1 e => rw [h1] at hx; cases hx
  | panic => rw [h1] at hx; cases hx
  | ok s1 a =>
    rw [h1] at hx
    dsimp only at hx
    obtain ⟨hb1, ht1⟩ := deduct_ok_fields h1
    have hInv1 : LedgerInv c s1 := LedgerInv_ext h hb1 ht1
    cases h2 : BALANCES_update (c, o)
        (fun b => u128_checked_sub (b.getD 0) amt) s1 with
    | err s2 e => rw [h2] at hx; cases hx
    | panic => rw [h2] at hx; cases hx
    | ok s2 v =>
      rw [h2] at hx
      dsimp only at hx
      obtain ⟨hwf2, hsum2, ht2, hle⟩ := balances_sub_ok h2 hInv1.1 hamt
      cases h3 : mapGet s2.token_info c with
      | none => rw [h3] at hx; cases hx
      | some t =>
        rw [h3] at hx
        dsimp only at hx
        cases h4 : u128_sub t.total_supply amt with
        | none => rw [h4] at hx; cases hx
        | some n =>
          rw [h4] at hx
          cases hx
          unfold u128_sub at h4
          by_cases hle2 : amt ≤ t.total_supply
          · rw [if_pos hle2] at h4
            cases h4
            have hsup2 : supplyOf s2 c = t.total_supply := by
              unfold supplyOf
              rw [h3]
            have hsup1 : supplyOf s2 c = supplyOf s1 c := supplyOf_ext ht2
            refine ⟨?_, ?_⟩
            · exact hwf2
            · rw [supplyOf_set_token]
              dsimp only
              have := hInv1.2
              omega
          · rw [if_neg hle2] at h4
            cases h4

lemma burn_from_err_inv {env : Env} {info : MessageInfo} {o : String}
    {amt : Int} {c : String} {s s' : Storage} {e : ContractError}
    (hx : execute_burn_from env info o amt c s = .err s' e)
    (h : LedgerInv c s) (hamt : 0 ≤ amt) : LedgerInv c s' := by
  unfold execute_burn_from at hx
  cases h1 : deduct_allowance o info.sender env.block amt c s with
  | panic => rw [h1] at hx; cases hx
  | err s1 e0 =>
    rw [h1] at hx
    cases hx
    exact LedgerInv_ext h (deduct_err_fields h1).1 (deduct_err_fields h1).2
  | ok s1 a =>
    rw [h1] at hx
    dsimp only at hx
    have hInv1 : LedgerInv c s1 :=
      LedgerInv_ext h (deduct_ok_fields h1).1 (deduct_ok_fields h1).2
    cases h2 : BALANCES_update (c, o)
        (fun b => u128_checked_sub (b.getD 0) amt) s1 with
    | panic => rw [h2] at hx; cases hx
    | err s2 e0 =>
      rw [h2] at hx
      cases hx
      rw [(BALANCES_update_err h2).2]
      exact hInv1
    | ok s2 v =>
      rw [h2] at hx
      dsimp only at hx
      obtain ⟨hwf2, hsum2, ht2, hle⟩ := balances_sub_ok h2 hInv1.1 hamt
      cases h3 : mapGet s2.token_info c with
      | some t =>
        rw [h3] at hx
        dsimp only at hx
        cases h4 : u128_sub t.total_supply amt with
        | none => rw [h4] at hx; cases hx
        | some n => rw [h4] at hx; cases hx
      | none =>
        rw [h3] at hx
        cases hx
        have hsup2 : supplyOf s' c = 0 := by
          unfold supplyOf
          rw [h3]
        have hsup1 : supplyOf s' c = supplyOf s1 c := supplyOf_ext ht2
        have hzero : chanSum c s1.balances = 0 := by
          have := hInv1.2
          omega
        have hgd : (mapGet s1.balances (c, o)).getD 0 ≤
            chanSum c s1.balances :=
          getD_le_chanSum hInv1.1.1 (fun x hxx => (hInv1.1.2 x hxx).1)
        refine ⟨hwf2, ?_⟩
        omega

lemma applyChanOp_inv (env : Env) (c : String) (s : Storage) (op : Op9)
    (h : LedgerInv c s) (hamt : 0 ≤ op.amt) :
    LedgerInv c (applyChanOp env c s op) := by
  cases op with
  | transferFrom info o r amt =>
    have hamt' : 0 ≤ amt := hamt
    unfold applyChanOp
    dsimp only
    cases hx : execute_transfer_from env info o r amt c s with
    | ok s1 v => exact transfer_from_ok_inv hx h hamt'
    | err s1 e => exact transfer_from_err_inv hx h hamt'
    | panic => exact h
  | burnFrom info o amt =>
    have hamt' : 0 ≤ amt := hamt
    unfold applyChanOp
    dsimp only
    cases hx : execute_burn_from env info o amt c s with
    | ok s1 v => exact burn_from_ok_inv hx h hamt'
    | err s1 e => exact burn_from_err_inv hx h hamt'
    | panic => exact h
  | sendFrom info o ct amt m =>
    have hamt' : 0 ≤ amt := hamt
    unfold applyChanOp
    dsimp only
    cases hx : execute_send_from env info o ct amt m c s with
    | ok s1 v => exact send_from_ok_inv hx h hamt'
    | err s1 e => exact send_from_err_inv hx h hamt'
    | panic => exact h

lemma applyChanOps_inv (env : Env) (c : String) :
    ∀ (ops : List Op9) (s : Storage), LedgerInv c s →
      (∀ op ∈ ops, 0 ≤ op.amt) → LedgerInv c (applyChanOps env c s ops)
  | [], _, h, _ => h
  | op :: rest, s, h, hws =>
    applyChanOps_inv env c rest (applyChanOp env c s op)
      (applyChanOp_inv env c s op h (hws op (by simp)))
      (fun o ho => hws o (by simp [ho]))

/-- C9: balances are never negative, and after any sequence of the
channel-confined spend operations (transfer-from, burn-from, send-from,
each with a nonnegative spend amount) applied to channel `c` from a state
satisfying the ledger invariant, the recorded total supply of `c` still
equals the sum of all balances on `c`, every stored balance is still a
valid unsigned 128-bit value, and every balance read is nonnegative. -/
theorem c9_supply_equals_balance_sum (env : Env) (c : String) (s : Storage)
    (ops : List Op9) (hInv : LedgerInv c s)
    (hamts : ∀ op ∈ ops, 0 ≤ op.amt) :
    LedgerInv c (applyChanOps env c s ops) ∧
    ∀ a : String, 0 ≤ balanceOf (applyChanOps env c s ops) c a := by
  have main := applyChanOps_inv env c ops s hInv hamts
  refine ⟨main, ?_⟩
  intro a
  unfold balanceOf
  exact getD_nonneg (fun e he => (main.1.2 e he).1)

/-- Witness for C9: after a transfer-from of 4 on channel c the invariant
still holds and the recipient balance reads nonnegative. -/
theorem c9_supply_equals_balance_sum_witness :
    LedgerInv "c" (applyChanOps wEnv "c" wLedger
      [.transferFrom { sender := "sp" } "o" "r" 4]) ∧
    0 ≤ balanceOf (applyChanOps wEnv "c" wLedger
      [.transferFrom { sender := "sp" } "o" "r" 4]) "c" "r" :=
  ⟨(c9_supply_equals_balance_sum wEnv "c" wLedger
      [.transferFrom { sender := "sp" } "o" "r" 4]
      ⟨⟨by decide, by decide⟩, by decide⟩ (by decide)).1,
   (c9_supply_equals_balance_sum wEnv "c" wLedger
      [.transferFrom { sender := "sp" } "o" "r" 4]
      ⟨⟨by decide, by decide⟩, by decide⟩ (by decide)).2 "r"⟩
